import Mathlib

/-!
Shallow embedding of the como-mqtt MQTT v5 client core (packet codec,
packet-identifier allocator, QoS delivery engine) and proofs about it.

Modelling conventions:
* Rust `Bytes` / `BytesMut` buffers are `List Nat`, one element per byte
  (elements are byte values, i.e. `< 256`, whenever they come off a real wire
  or out of an encoder).
* Fallible Rust code returning `Result<_, MqttError>` becomes
  `Except RunError _`; `RunError.panicked` marks executions on which the Rust
  code aborts (`unimplemented!()`, out-of-range `Bytes::slice`/`split_to`,
  `Option::unwrap` on `None`, `Buf::get_*` past the end of the buffer).
* Machine integers are `Nat` with explicit `% 2^w` at the points where the
  Rust code can wrap (release-profile two's-complement semantics).
-/

namespace ComoMqtt

/-- Quality-of-service levels (`enum QoS` in `src/v5/types.rs`). -/
inductive QoS where
  | atMostOnce
  | atLeastOnce
  | exactlyOnce
  deriving DecidableEq, Repr

/-- `impl From<QoS> for u8`. -/
def QoS.toNat : QoS → Nat
  | .atMostOnce => 0
  | .atLeastOnce => 1
  | .exactlyOnce => 2

/-- Retain-handling policy for subscriptions (`enum Retain` in
`src/v5/types.rs`). -/
inductive Retain where
  | sendAtTime
  | sendAtSubscribe
  | doNotSend
  deriving DecidableEq, Repr

/-- `impl From<Retain> for u8`. -/
def Retain.toNat : Retain → Nat
  | .sendAtTime => 0
  | .sendAtSubscribe => 1
  | .doNotSend => 2

/-- Property identifiers, mirroring `enum Property` in `src/v5/property.rs`. -/
inductive Property where
  | payloadFormatIndicator
  | messageExpireInterval
  | contentType
  | responseTopic
  | correlationData
  | subscriptionIdentifier
  | sessionExpireInterval
  | assignedClientIdentifier
  | serverKeepAlive
  | authenticationMethod
  | authenticationData
  | requestProblemInformation
  | willDelayInterval
  | requestResponseInformation
  | responseInformation
  | serverReference
  | reasonString
  | receiveMaximum
  | topicAliasMaximum
  | topicAlias
  | maximumQoS
  | retainAvailable
  | userProperty
  | maximumPacketSize
  | wildcardSubscriptionAvailable
  | subscriptionIdentifierAvailable
  | sharedSubscriptionAvailable
  deriving DecidableEq, Repr

/-- The wire id of a property (`Property::$p as u8`). -/
def Property.toNat : Property → Nat
  | .payloadFormatIndicator => 0x01
  | .messageExpireInterval => 0x02
  | .contentType => 0x03
  | .responseTopic => 0x08
  | .correlationData => 0x09
  | .subscriptionIdentifier => 0x0B
  | .sessionExpireInterval => 0x11
  | .assignedClientIdentifier => 0x12
  | .serverKeepAlive => 0x13
  | .authenticationMethod => 0x15
  | .authenticationData => 0x16
  | .requestProblemInformation => 0x17
  | .willDelayInterval => 0x18
  | .requestResponseInformation => 0x19
  | .responseInformation => 0x1A
  | .serverReference => 0x1C
  | .reasonString => 0x1F
  | .receiveMaximum => 0x21
  | .topicAliasMaximum => 0x22
  | .topicAlias => 0x23
  | .maximumQoS => 0x24
  | .retainAvailable => 0x25
  | .userProperty => 0x26
  | .maximumPacketSize => 0x27
  | .wildcardSubscriptionAvailable => 0x28
  | .subscriptionIdentifierAvailable => 0x29
  | .sharedSubscriptionAvailable => 0x2A

/-- Error type mirroring `MqttError` in `src/v5/error.rs` (the variants the
embedded pure code can produce; the `Io`/`Bincode` transport variants cannot
arise in the codec itself). -/
inductive MqttError where
  | unspecifiedError (msg : String)
  | endOfStream (ctx : String)
  | malformedPacket
  | malformedVariableInteger (value : Nat)
  | malformedReasonCode (b : Nat)
  | malformedPacketType (b : Nat)
  | malformedQoS (b : Nat)
  | malformedRetain (b : Nat)
  | malformedPropertyType (id : Nat)
  | unacceptableProperty (p : Property)
  | undefinedPacketIdentifier (qos : QoS)
  | moreThanOnceProperty
  | packetTooLarge
  | unsupportedProtocolVersion (v : String)
  | topicFilterInvalid (s : String)
  | topicNameInvalid (s : String)
  | emptyPropertyValue (p : String)
  | fromUtf8Error
  deriving DecidableEq, Repr

/-- Outcome of running a piece of Rust code: a value, an `MqttError`, or an
abort of the process (`unimplemented!`, slice out of range, unwrap on `None`).
`fuelExhausted` is a model artifact of the fuel used to express the source's
`while reader.has_remaining()` loops structurally; every such loop is entered
with fuel equal to the reader length and consumes at least one byte per
iteration, so this outcome is unreachable from the entry points below. -/
inductive RunError where
  | mqtt (e : MqttError)
  | panicked
  | fuelExhausted
  deriving DecidableEq, Repr

/-- `Buf::get_u8`: one byte off the front; panics when the buffer is empty. -/
def getU8 : List Nat → Except RunError (Nat × List Nat)
  | [] => .error .panicked
  | b :: r => .ok (b, r)

/-- `Buf::get_u16` (big-endian); panics when fewer than two bytes remain. -/
def getU16 : List Nat → Except RunError (Nat × List Nat)
  | b0 :: b1 :: r => .ok (b0 * 256 + b1, r)
  | _ => .error .panicked

/-- `Buf::get_u32` (big-endian); panics when fewer than four bytes remain. -/
def getU32 : List Nat → Except RunError (Nat × List Nat)
  | b0 :: b1 :: b2 :: b3 :: r =>
      .ok (((b0 * 256 + b1) * 256 + b2) * 256 + b3, r)
  | _ => .error .panicked

/-- `Bytes::split_to(n)`: detaches the first `n` bytes and advances the
cursor; panics when `n` exceeds the remaining length. -/
def splitTo (n : Nat) (reader : List Nat) :
    Except RunError (List Nat × List Nat) :=
  if n ≤ reader.length then .ok (reader.take n, reader.drop n)
  else .error .panicked

/-- `Bytes::slice(..n)`: a copy of the first `n` bytes WITHOUT advancing the
cursor; panics when `n` exceeds the remaining length.  (`PublishResponse`,
`SubAck` and `Auth` decoding use this instead of `split_to`.) -/
def sliceTo (n : Nat) (reader : List Nat) : Except RunError (List Nat) :=
  if n ≤ reader.length then .ok (reader.take n)
  else .error .panicked

/-- `BufMut::put_u16` big-endian byte pair of a `u16` value. -/
def putU16 (v : Nat) : List Nat := [v % 65536 / 256, v % 256]

/-- `BufMut::put_u32` big-endian bytes of a `u32` value. -/
def putU32 (v : Nat) : List Nat :=
  [v % 2 ^ 32 / 2 ^ 24, v % 2 ^ 24 / 2 ^ 16, v % 2 ^ 16 / 2 ^ 8, v % 2 ^ 8]

/-- Loop body of `decode_variable_integer` in `src/v5/decoder.rs`.  Per
iteration: require a byte (`EndOfStream` otherwise), accumulate
`(b & 0x7F) * multiplier` into the `u32` accumulator (wrapping), fail with
`MalformedVariableInteger` when the multiplier has already passed `0x80^3`,
otherwise scale the multiplier and continue while the top bit is set. -/
def decodeVariableIntegerLoop :
    List Nat → Nat → Nat → Except RunError (Nat × List Nat)
  | [], _, _ => .error (.mqtt (.endOfStream "decode_variable_integer"))
  | b :: rest, multiplier, value =>
      let value := (value + (b &&& 0x7F) * multiplier) % 2 ^ 32
      if multiplier ≤ 0x80 * 0x80 * 0x80 then
        if b &&& 0x80 = 0 then .ok (value, rest)
        else decodeVariableIntegerLoop rest (multiplier * 0x80) value
      else .error (.mqtt (.malformedVariableInteger value))

/-- `decode_variable_integer` (`src/v5/decoder.rs:94`). -/
def decodeVariableInteger (reader : List Nat) :
    Except RunError (Nat × List Nat) :=
  decodeVariableIntegerLoop reader 1 0

/-- `encode_variable_integer` (`src/v5/encoder.rs:160`): emit `value % 128`
digits, setting the continuation bit while a nonzero quotient remains.  The
capacity guard on the output buffer cannot fire after the caller's `reserve`,
so the encoder is total here. -/
def encodeVariableInteger (v : Nat) : List Nat :=
  if h : v < 0x80 then [v]
  else (v % 0x80 + 0x80) :: encodeVariableInteger (v / 0x80)
  decreasing_by exact Nat.div_lt_self (by omega) (by omega)

/-- `impl PropertiesSize for usize` (`src/v5/encoder.rs:141`): the byte count
of the variable-length-integer encoding. -/
def usizeSize (n : Nat) : Nat :=
  if n ≤ 0x7F then 1
  else if n ≤ 0x3FFF then 2
  else if n ≤ 0x1FFFFF then 3
  else 4

/-- `decode_utf8_string` (`src/v5/decoder.rs:119`): `u16` length prefix, then
that many bytes; a zero length denotes an absent string (`None`). -/
def decodeUtf8String (reader : List Nat) :
    Except RunError (Option (List Nat) × List Nat) :=
  match reader with
  | b0 :: b1 :: rest =>
      let len := b0 * 256 + b1
      if len ≤ rest.length then
        if 0 < len then .ok (some (rest.take len), rest.drop len)
        else .ok (none, rest)
      else .error (.mqtt (.endOfStream "decode_utf8_string"))
  | _ => .error (.mqtt (.endOfStream "decode_utf8_string"))

/-- `encode_utf8_string` (`src/v5/encoder.rs:152`): `u16` length prefix
(truncating casts as in `s.len() as u16`), then the bytes. -/
def encodeUtf8String (s : List Nat) : List Nat := putU16 s.length ++ s

/-- `impl TryFrom<u8> for QoS`. -/
def QoS.tryFrom (v : Nat) : Except RunError QoS :=
  match v with
  | 0 => .ok .atMostOnce
  | 1 => .ok .atLeastOnce
  | 2 => .ok .exactlyOnce
  | _ => .error (.mqtt (.malformedQoS v))

/-- `impl TryFrom<u8> for Retain`. -/
def Retain.tryFrom (v : Nat) : Except RunError Retain :=
  match v with
  | 0 => .ok .sendAtTime
  | 1 => .ok .sendAtSubscribe
  | 2 => .ok .doNotSend
  | _ => .error (.mqtt (.malformedRetain v))

/-- `impl TryFrom<u32> for Property`. -/
def Property.tryFrom (v : Nat) : Except RunError Property :=
  match v with
  | 0x01 => .ok .payloadFormatIndicator
  | 0x02 => .ok .messageExpireInterval
  | 0x03 => .ok .contentType
  | 0x08 => .ok .responseTopic
  | 0x09 => .ok .correlationData
  | 0x0B => .ok .subscriptionIdentifier
  | 0x11 => .ok .sessionExpireInterval
  | 0x12 => .ok .assignedClientIdentifier
  | 0x13 => .ok .serverKeepAlive
  | 0x15 => .ok .authenticationMethod
  | 0x16 => .ok .authenticationData
  | 0x17 => .ok .requestProblemInformation
  | 0x18 => .ok .willDelayInterval
  | 0x19 => .ok .requestResponseInformation
  | 0x1A => .ok .responseInformation
  | 0x1C => .ok .serverReference
  | 0x1F => .ok .reasonString
  | 0x21 => .ok .receiveMaximum
  | 0x22 => .ok .topicAliasMaximum
  | 0x23 => .ok .topicAlias
  | 0x24 => .ok .maximumQoS
  | 0x25 => .ok .retainAvailable
  | 0x26 => .ok .userProperty
  | 0x27 => .ok .maximumPacketSize
  | 0x28 => .ok .wildcardSubscriptionAvailable
  | 0x29 => .ok .subscriptionIdentifierAvailable
  | 0x2A => .ok .sharedSubscriptionAvailable
  | _ => .error (.mqtt (.malformedPropertyType v))

/-- Reason codes (`enum ReasonCode` in `src/v5/types.rs`). -/
inductive ReasonCode where
  | success
  | grantedQoS1
  | grantedQoS2
  | disconnectWithWill
  | noSubscriptionExisted
  | unspecifiedError
  | malformedPacket
  | protocolError
  | implementationSpecificError
  | unsupportedProtocolVersion
  | clientIdentifiersNotValid
  | badUserNameOrPassword
  | notAuthorized
  | serverUnavailable
  | serverBusy
  | banned
  | serverShuttingDown
  | badAuthenticationMethod
  | keepAliveTimeout
  | sessionTakenOver
  | topicFilterInvalid
  | topicNameInvalid
  | packetIdentifierInUse
  | packetIdentifierNotFound
  | receiveMaximumExceeded
  | packetTooLarge
  | quotaExceeded
  | payloadFormatInvalid
  | retainNotSupported
  | qosNotSupported
  | useAnotherServer
  | serverMoved
  | connectionRateExceeded
  deriving DecidableEq, Repr

/-- `impl From<ReasonCode> for u8`. -/
def ReasonCode.toNat : ReasonCode → Nat
  | .success => 0x00
  | .grantedQoS1 => 0x01
  | .grantedQoS2 => 0x02
  | .disconnectWithWill => 0x04
  | .noSubscriptionExisted => 0x11
  | .unspecifiedError => 0x80
  | .malformedPacket => 0x81
  | .protocolError => 0x82
  | .implementationSpecificError => 0x83
  | .unsupportedProtocolVersion => 0x84
  | .clientIdentifiersNotValid => 0x85
  | .badUserNameOrPassword => 0x86
  | .notAuthorized => 0x87
  | .serverUnavailable => 0x88
  | .serverBusy => 0x89
  | .banned => 0x8A
  | .serverShuttingDown => 0x8B
  | .badAuthenticationMethod => 0x8C
  | .keepAliveTimeout => 0x8D
  | .sessionTakenOver => 0x8E
  | .topicFilterInvalid => 0x8F
  | .topicNameInvalid => 0x90
  | .packetIdentifierInUse => 0x91
  | .packetIdentifierNotFound => 0x92
  | .receiveMaximumExceeded => 0x93
  | .packetTooLarge => 0x95
  | .quotaExceeded => 0x97
  | .payloadFormatInvalid => 0x99
  | .retainNotSupported => 0x9A
  | .qosNotSupported => 0x9B
  | .useAnotherServer => 0x9C
  | .serverMoved => 0x9D
  | .connectionRateExceeded => 0x9F

/-- `impl TryFrom<u8> for ReasonCode`: unknown bytes are rejected. -/
def ReasonCode.tryFrom (b : Nat) : Except RunError ReasonCode :=
  match b with
  | 0x00 => .ok .success
  | 0x01 => .ok .grantedQoS1
  | 0x02 => .ok .grantedQoS2
  | 0x04 => .ok .disconnectWithWill
  | 0x11 => .ok .noSubscriptionExisted
  | 0x80 => .ok .unspecifiedError
  | 0x81 => .ok .malformedPacket
  | 0x82 => .ok .protocolError
  | 0x83 => .ok .implementationSpecificError
  | 0x84 => .ok .unsupportedProtocolVersion
  | 0x85 => .ok .clientIdentifiersNotValid
  | 0x86 => .ok .badUserNameOrPassword
  | 0x87 => .ok .notAuthorized
  | 0x88 => .ok .serverUnavailable
  | 0x89 => .ok .serverBusy
  | 0x8A => .ok .banned
  | 0x8B => .ok .serverShuttingDown
  | 0x8C => .ok .badAuthenticationMethod
  | 0x8D => .ok .keepAliveTimeout
  | 0x8E => .ok .sessionTakenOver
  | 0x8F => .ok .topicFilterInvalid
  | 0x90 => .ok .topicNameInvalid
  | 0x91 => .ok .packetIdentifierInUse
  | 0x92 => .ok .packetIdentifierNotFound
  | 0x93 => .ok .receiveMaximumExceeded
  | 0x95 => .ok .packetTooLarge
  | 0x97 => .ok .quotaExceeded
  | 0x99 => .ok .payloadFormatInvalid
  | 0x9A => .ok .retainNotSupported
  | 0x9B => .ok .qosNotSupported
  | 0x9C => .ok .useAnotherServer
  | 0x9D => .ok .serverMoved
  | 0x9F => .ok .connectionRateExceeded
  | _ => .error (.mqtt (.malformedReasonCode b))

/-- Packet types with the Publish flag nibble (`enum PacketType` in
`src/v5/types.rs`). -/
inductive PacketType where
  | connect
  | connAck
  | publish (dup : Bool) (qos : QoS) (retain : Bool)
  | pubAck
  | pubRec
  | pubRel
  | pubComp
  | subscribe
  | subAck
  | unSubscribe
  | unSubAck
  | pingReq
  | pingResp
  | disconnect
  | auth
  deriving DecidableEq, Repr

/-- `impl TryFrom<u8> for PacketType`: the high nibble selects the kind, a
Publish byte (`0x30..=0x3F`) also decodes its flag bits. -/
def PacketType.tryFrom (v : Nat) : Except RunError PacketType :=
  if v = 0x10 then .ok .connect
  else if v = 0x20 then .ok .connAck
  else if 0x30 ≤ v ∧ v ≤ 0x3F then do
    let qos ← QoS.tryFrom ((v &&& 0x06) >>> 1)
    .ok (.publish (v &&& 0x08 != 0) qos (v &&& 0x01 != 0))
  else if v = 0x40 then .ok .pubAck
  else if v = 0x50 then .ok .pubRec
  else if v = 0x62 then .ok .pubRel
  else if v = 0x70 then .ok .pubComp
  else if v = 0x82 then .ok .subscribe
  else if v = 0x90 then .ok .subAck
  else if v = 0xA2 then .ok .unSubscribe
  else if v = 0xB0 then .ok .unSubAck
  else if v = 0xC0 then .ok .pingReq
  else if v = 0xD0 then .ok .pingResp
  else if v = 0xE0 then .ok .disconnect
  else if v = 0xF0 then .ok .auth
  else .error (.mqtt (.malformedPacketType v))

/-- `impl From<PacketType> for u8`. -/
def PacketType.toNat : PacketType → Nat
  | .connect => 0x10
  | .connAck => 0x20
  | .publish dup qos retain =>
      0x30 ||| ((if dup then 1 else 0) <<< 3) ||| (qos.toNat <<< 1) |||
        (if retain then 1 else 0)
  | .pubAck => 0x40
  | .pubRec => 0x50
  | .pubRel => 0x62
  | .pubComp => 0x70
  | .subscribe => 0x82
  | .subAck => 0x90
  | .unSubscribe => 0xA2
  | .unSubAck => 0xB0
  | .pingReq => 0xC0
  | .pingResp => 0xD0
  | .disconnect => 0xE0
  | .auth => 0xF0

/-- `WillProperties` (`src/v5/property.rs`); strings and binary payloads are
byte lists. -/
structure WillProperties where
  will_delay_interval : Nat
  payload_format_indicator : Option Bool
  message_expire_interval : Option Nat
  content_type : Option (List Nat)
  response_topic : Option (List Nat)
  correlation_data : Option (List Nat)
  user_properties : List (List Nat × List Nat)
  deriving DecidableEq, Repr

/-- `ConnectProperties` (`src/v5/property.rs`). -/
structure ConnectProperties where
  session_expire_interval : Option Nat
  receive_maximum : Option Nat
  maximum_packet_size : Option Nat
  topic_alias_maximum : Option Nat
  request_response_information : Option Bool
  request_problem_information : Option Bool
  user_properties : List (List Nat × List Nat)
  authentication_method : Option (List Nat)
  authentication_data : Option (List Nat)
  deriving DecidableEq, Repr

/-- `ConnAckProperties` (`src/v5/property.rs`). -/
structure ConnAckProperties where
  session_expire_interval : Option Nat
  receive_maximum : Option Nat
  maximum_qos : Option QoS
  retain_available : Option Bool
  maximum_packet_size : Option Nat
  assigned_client_identifier : Option (List Nat)
  topic_alias_maximum : Option Nat
  reason_string : Option (List Nat)
  user_properties : List (List Nat × List Nat)
  wildcard_subscription_available : Option Bool
  subscription_identifier_available : Option Bool
  shared_subscription_available : Option Bool
  server_keep_alive : Option Nat
  response_information : Option (List Nat)
  server_reference : Option (List Nat)
  authentication_method : Option (List Nat)
  authentication_data : Option (List Nat)
  deriving DecidableEq, Repr

/-- `PublishProperties` (`src/v5/property.rs`). -/
structure PublishProperties where
  payload_format_indicator : Option Bool
  message_expire_interval : Option Nat
  topic_alias : Option Nat
  response_topic : Option (List Nat)
  correlation_data : Option (List Nat)
  user_properties : List (List Nat × List Nat)
  subscription_identifier : Option Nat
  content_type : Option (List Nat)
  deriving DecidableEq, Repr

/-- `ResponseProperties` (`src/v5/property.rs`), used by
PubAck/PubRec/PubRel/PubComp and SubAck. -/
structure ResponseProperties where
  reason_string : Option (List Nat)
  user_properties : List (List Nat × List Nat)
  deriving DecidableEq, Repr

/-- `impl Default for ResponseProperties`. -/
def ResponseProperties.default : ResponseProperties :=
  { reason_string := none, user_properties := [] }

/-- `DisconnectProperties` (`src/v5/property.rs`). -/
structure DisconnectProperties where
  session_expire_interval : Option Nat
  reason_string : Option (List Nat)
  user_properties : List (List Nat × List Nat)
  server_reference : Option (List Nat)
  deriving DecidableEq, Repr

/-- `impl Default for DisconnectProperties`. -/
def DisconnectProperties.default : DisconnectProperties :=
  { session_expire_interval := none, reason_string := none,
    user_properties := [], server_reference := none }

/-- `SubscribeProperties` (`src/v5/property.rs`). -/
structure SubscribeProperties where
  subscription_identifier : Option Nat
  user_properties : List (List Nat × List Nat)
  deriving DecidableEq, Repr

/-- `impl Default for SubscribeProperties`. -/
def SubscribeProperties.default : SubscribeProperties :=
  { subscription_identifier := none, user_properties := [] }

/-- `UnSubscribeProperties` (`src/v5/property.rs`). -/
structure UnSubscribeProperties where
  user_properties : List (List Nat × List Nat)
  deriving DecidableEq, Repr

/-- `AuthProperties` (`src/v5/property.rs`). -/
structure AuthProperties where
  authentication_method : Option (List Nat)
  authentication_data : Option (List Nat)
  reason_string : Option (List Nat)
  user_properties : List (List Nat × List Nat)
  deriving DecidableEq, Repr

/-- The shared single-assignment property builder
(`struct PropertiesBuilder` in `src/v5/property.rs`). -/
structure PropertiesBuilder where
  payload_format_indicator : Option Bool
  message_expire_interval : Option Nat
  content_type : Option (List Nat)
  response_topic : Option (List Nat)
  correlation_data : Option (List Nat)
  subscription_identifier : Option Nat
  session_expire_interval : Option Nat
  assigned_client_identifier : Option (List Nat)
  server_keep_alive : Option Nat
  authentication_method : Option (List Nat)
  authentication_data : Option (List Nat)
  request_problem_information : Option Bool
  will_delay_interval : Option Nat
  request_response_information : Option Bool
  response_information : Option (List Nat)
  server_reference : Option (List Nat)
  reason_string : Option (List Nat)
  receive_maximum : Option Nat
  topic_alias_maximum : Option Nat
  topic_alias : Option Nat
  maximum_qos : Option QoS
  retain_available : Option Bool
  user_properties : List (List Nat × List Nat)
  maximum_packet_size : Option Nat
  wildcard_subscription_available : Option Bool
  subscription_identifier_available : Option Bool
  shared_subscription_available : Option Bool
  deriving DecidableEq, Repr

/-- `impl Default for PropertiesBuilder`: every slot empty. -/
def PropertiesBuilder.default : PropertiesBuilder :=
  { payload_format_indicator := none, message_expire_interval := none,
    content_type := none, response_topic := none, correlation_data := none,
    subscription_identifier := none, session_expire_interval := none,
    assigned_client_identifier := none, server_keep_alive := none,
    authentication_method := none, authentication_data := none,
    request_problem_information := none, will_delay_interval := none,
    request_response_information := none, response_information := none,
    server_reference := none, reason_string := none, receive_maximum := none,
    topic_alias_maximum := none, topic_alias := none, maximum_qos := none,
    retain_available := none, user_properties := [],
    maximum_packet_size := none, wildcard_subscription_available := none,
    subscription_identifier_available := none,
    shared_subscription_available := none }

/-! Builder setters (`impl PropertiesBuilder`): `check_and_set!` errors with
`MoreThanOnceProperty` when a scalar slot is already filled; the
`Option`-taking setters error with `EmptyPropertyValue` on `None`.  The Rust
methods share names with the fields, so the embedded setters carry a `set`
prefix. -/

/-- `PropertiesBuilder::session_expire_interval`. -/
def PropertiesBuilder.setSessionExpireInterval (b : PropertiesBuilder)
    (v : Nat) : Except RunError PropertiesBuilder :=
  match b.session_expire_interval with
  | none => .ok { b with session_expire_interval := some v }
  | some _ => .error (.mqtt .moreThanOnceProperty)

/-- `PropertiesBuilder::receive_maximum`. -/
def PropertiesBuilder.setReceiveMaximum (b : PropertiesBuilder) (v : Nat) :
    Except RunError PropertiesBuilder :=
  match b.receive_maximum with
  | none => .ok { b with receive_maximum := some v }
  | some _ => .error (.mqtt .moreThanOnceProperty)

/-- `PropertiesBuilder::maximum_packet_size`. -/
def PropertiesBuilder.setMaximumPacketSize (b : PropertiesBuilder) (v : Nat) :
    Except RunError PropertiesBuilder :=
  match b.maximum_packet_size with
  | none => .ok { b with maximum_packet_size := some v }
  | some _ => .error (.mqtt .moreThanOnceProperty)

/-- `PropertiesBuilder::topic_alias_maximum`. -/
def PropertiesBuilder.setTopicAliasMaximum (b : PropertiesBuilder) (v : Nat) :
    Except RunError PropertiesBuilder :=
  match b.topic_alias_maximum with
  | none => .ok { b with topic_alias_maximum := some v }
  | some _ => .error (.mqtt .moreThanOnceProperty)

/-- `PropertiesBuilder::request_response_information` (`u8` argument is
converted to `value != 0`). -/
def PropertiesBuilder.setRequestResponseInformation (b : PropertiesBuilder)
    (v : Nat) : Except RunError PropertiesBuilder :=
  match b.request_response_information with
  | none => .ok { b with request_response_information := some (v ≠ 0) }
  | some _ => .error (.mqtt .moreThanOnceProperty)

/-- `PropertiesBuilder::request_problem_information`. -/
def PropertiesBuilder.setRequestProblemInformation (b : PropertiesBuilder)
    (v : Nat) : Except RunError PropertiesBuilder :=
  match b.request_problem_information with
  | none => .ok { b with request_problem_information := some (v ≠ 0) }
  | some _ => .error (.mqtt .moreThanOnceProperty)

/-- `PropertiesBuilder::user_property`: appends, never fails. -/
def PropertiesBuilder.addUserProperty (b : PropertiesBuilder)
    (kv : List Nat × List Nat) : PropertiesBuilder :=
  { b with user_properties := b.user_properties ++ [kv] }

/-- `PropertiesBuilder::authentication_method`. -/
def PropertiesBuilder.setAuthenticationMethod (b : PropertiesBuilder)
    (v : List Nat) : Except RunError PropertiesBuilder :=
  match b.authentication_method with
  | none => .ok { b with authentication_method := some v }
  | some _ => .error (.mqtt .moreThanOnceProperty)

/-- `PropertiesBuilder::will_delay_interval`. -/
def PropertiesBuilder.setWillDelayInterval (b : PropertiesBuilder) (v : Nat) :
    Except RunError PropertiesBuilder :=
  match b.will_delay_interval with
  | none => .ok { b with will_delay_interval := some v }
  | some _ => .error (.mqtt .moreThanOnceProperty)

/-- `PropertiesBuilder::payload_format_indicator`. -/
def PropertiesBuilder.setPayloadFormatIndicator (b : PropertiesBuilder)
    (v : Nat) : Except RunError PropertiesBuilder :=
  match b.payload_format_indicator with
  | none => .ok { b with payload_format_indicator := some (v ≠ 0) }
  | some _ => .error (.mqtt .moreThanOnceProperty)

/-- `PropertiesBuilder::message_expire_interval`. -/
def PropertiesBuilder.setMessageExpireInterval (b : PropertiesBuilder)
    (v : Nat) : Except RunError PropertiesBuilder :=
  match b.message_expire_interval with
  | none => .ok { b with message_expire_interval := some v }
  | some _ => .error (.mqtt .moreThanOnceProperty)

/-- `PropertiesBuilder::content_type` (takes the decoded `Option`; an absent
string is `EmptyPropertyValue`). -/
def PropertiesBuilder.setContentType (b : PropertiesBuilder)
    (v : Option (List Nat)) : Except RunError PropertiesBuilder :=
  match v with
  | some s =>
      match b.content_type with
      | none => .ok { b with content_type := some s }
      | some _ => .error (.mqtt .moreThanOnceProperty)
  | none => .error (.mqtt (.emptyPropertyValue "ContentType"))

/-- `PropertiesBuilder::response_topic`. -/
def PropertiesBuilder.setResponseTopic (b : PropertiesBuilder)
    (v : Option (List Nat)) : Except RunError PropertiesBuilder :=
  match v with
  | some s =>
      match b.response_topic with
      | none => .ok { b with response_topic := some s }
      | some _ => .error (.mqtt .moreThanOnceProperty)
  | none => .error (.mqtt (.emptyPropertyValue "ResponseTopic"))

/-- `PropertiesBuilder::server_reference`. -/
def PropertiesBuilder.setServerReference (b : PropertiesBuilder)
    (v : Option (List Nat)) : Except RunError PropertiesBuilder :=
  match v with
  | some s =>
      match b.server_reference with
      | none => .ok { b with server_reference := some s }
      | some _ => .error (.mqtt .moreThanOnceProperty)
  | none => .error (.mqtt (.emptyPropertyValue "ServerReference"))

/-- `PropertiesBuilder::correlation_data`. -/
def PropertiesBuilder.setCorrelationData (b : PropertiesBuilder)
    (v : Option (List Nat)) : Except RunError PropertiesBuilder :=
  match v with
  | some s =>
      match b.correlation_data with
      | none => .ok { b with correlation_data := some s }
      | some _ => .error (.mqtt .moreThanOnceProperty)
  | none => .error (.mqtt (.emptyPropertyValue "CorrelationDate"))

/-- `PropertiesBuilder::maximum_qos` (`u8` goes through `QoS::try_from`). -/
def PropertiesBuilder.setMaximumQoS (b : PropertiesBuilder) (v : Nat) :
    Except RunError PropertiesBuilder := do
  let q ← QoS.tryFrom v
  match b.maximum_qos with
  | none => .ok { b with maximum_qos := some q }
  | some _ => .error (.mqtt .moreThanOnceProperty)

/-- `PropertiesBuilder::retain_available`. -/
def PropertiesBuilder.setRetainAvailable (b : PropertiesBuilder) (v : Nat) :
    Except RunError PropertiesBuilder :=
  match b.retain_available with
  | none => .ok { b with retain_available := some (v ≠ 0) }
  | some _ => .error (.mqtt .moreThanOnceProperty)

/-- `PropertiesBuilder::wildcard_subscription_available`. -/
def PropertiesBuilder.setWildcardSubscriptionAvailable (b : PropertiesBuilder)
    (v : Nat) : Except RunError PropertiesBuilder :=
  match b.wildcard_subscription_available with
  | none => .ok { b with wildcard_subscription_available := some (v ≠ 0) }
  | some _ => .error (.mqtt .moreThanOnceProperty)

/-- `PropertiesBuilder::subscription_identifier_available`. -/
def PropertiesBuilder.setSubscriptionIdentifierAvailable
    (b : PropertiesBuilder) (v : Nat) : Except RunError PropertiesBuilder :=
  match b.subscription_identifier_available with
  | none => .ok { b with subscription_identifier_available := some (v ≠ 0) }
  | some _ => .error (.mqtt .moreThanOnceProperty)

/-- `PropertiesBuilder::shared_subscription_available`. -/
def PropertiesBuilder.setSharedSubscriptionAvailable (b : PropertiesBuilder)
    (v : Nat) : Except RunError PropertiesBuilder :=
  match b.shared_subscription_available with
  | none => .ok { b with shared_subscription_available := some (v ≠ 0) }
  | some _ => .error (.mqtt .moreThanOnceProperty)

/-- `PropertiesBuilder::server_keep_alive`. -/
def PropertiesBuilder.setServerKeepAlive (b : PropertiesBuilder) (v : Nat) :
    Except RunError PropertiesBuilder :=
  match b.server_keep_alive with
  | none => .ok { b with server_keep_alive := some v }
  | some _ => .error (.mqtt .moreThanOnceProperty)

/-- `PropertiesBuilder::topic_alias`. -/
def PropertiesBuilder.setTopicAlias (b : PropertiesBuilder) (v : Nat) :
    Except RunError PropertiesBuilder :=
  match b.topic_alias with
  | none => .ok { b with topic_alias := some v }
  | some _ => .error (.mqtt .moreThanOnceProperty)

/-- `PropertiesBuilder::subscription_identifier`. -/
def PropertiesBuilder.setSubscriptionIdentifier (b : PropertiesBuilder)
    (v : Nat) : Except RunError PropertiesBuilder :=
  match b.subscription_identifier with
  | none => .ok { b with subscription_identifier := some v }
  | some _ => .error (.mqtt .moreThanOnceProperty)

/-- `PropertiesBuilder::assigned_client_identifier`. -/
def PropertiesBuilder.setAssignedClientIdentifier (b : PropertiesBuilder)
    (v : Option (List Nat)) : Except RunError PropertiesBuilder :=
  match v with
  | some s =>
      match b.assigned_client_identifier with
      | none => .ok { b with assigned_client_identifier := some s }
      | some _ => .error (.mqtt .moreThanOnceProperty)
  | none => .error (.mqtt (.emptyPropertyValue "AssignedClientIdentifier"))

/-- `PropertiesBuilder::will` projection. -/
def PropertiesBuilder.will (b : PropertiesBuilder) : WillProperties :=
  { will_delay_interval := b.will_delay_interval.getD 0,
    payload_format_indicator := b.payload_format_indicator,
    message_expire_interval := b.message_expire_interval,
    content_type := b.content_type,
    response_topic := b.response_topic,
    correlation_data := b.correlation_data,
    user_properties := b.user_properties }

/-- `PropertiesBuilder::connect` projection. -/
def PropertiesBuilder.connect (b : PropertiesBuilder) : ConnectProperties :=
  { session_expire_interval := b.session_expire_interval,
    receive_maximum := b.receive_maximum,
    maximum_packet_size := b.maximum_packet_size,
    topic_alias_maximum := b.topic_alias_maximum,
    request_response_information := b.request_response_information,
    request_problem_information := b.request_problem_information,
    user_properties := b.user_properties,
    authentication_method := b.authentication_method,
    authentication_data := b.authentication_data }

/-- `PropertiesBuilder::connack` projection. -/
def PropertiesBuilder.connack (b : PropertiesBuilder) : ConnAckProperties :=
  { session_expire_interval := b.session_expire_interval,
    receive_maximum := b.receive_maximum,
    maximum_qos := b.maximum_qos,
    retain_available := b.retain_available,
    maximum_packet_size := b.maximum_packet_size,
    assigned_client_identifier := b.assigned_client_identifier,
    topic_alias_maximum := b.topic_alias_maximum,
    reason_string := b.reason_string,
    user_properties := b.user_properties,
    wildcard_subscription_available := b.wildcard_subscription_available,
    subscription_identifier_available := b.subscription_identifier_available,
    shared_subscription_available := b.shared_subscription_available,
    server_keep_alive := b.server_keep_alive,
    response_information := b.response_information,
    server_reference := b.server_reference,
    authentication_method := b.authentication_method,
    authentication_data := b.authentication_data }

/-- `PropertiesBuilder::publish` projection. -/
def PropertiesBuilder.publish (b : PropertiesBuilder) : PublishProperties :=
  { payload_format_indicator := b.payload_format_indicator,
    message_expire_interval := b.message_expire_interval,
    topic_alias := b.topic_alias,
    response_topic := b.response_topic,
    correlation_data := b.correlation_data,
    user_properties := b.user_properties,
    subscription_identifier := b.subscription_identifier,
    content_type := b.content_type }

/-- `PropertiesBuilder::pubres` projection: only the reason string and user
properties survive (a value decoded into the `response_topic` slot is
dropped here). -/
def PropertiesBuilder.pubres (b : PropertiesBuilder) : ResponseProperties :=
  { reason_string := b.reason_string,
    user_properties := b.user_properties }

/-- `PropertiesBuilder::disconnect` projection. -/
def PropertiesBuilder.disconnect (b : PropertiesBuilder) :
    DisconnectProperties :=
  { session_expire_interval := b.session_expire_interval,
    reason_string := b.reason_string,
    user_properties := b.user_properties,
    server_reference := b.server_reference }

/-- `PropertiesBuilder::subscribe` projection. -/
def PropertiesBuilder.subscribe (b : PropertiesBuilder) :
    SubscribeProperties :=
  { subscription_identifier := b.subscription_identifier,
    user_properties := b.user_properties }

/-- `PropertiesBuilder::unsubscribe` projection. -/
def PropertiesBuilder.unsubscribe (b : PropertiesBuilder) :
    UnSubscribeProperties :=
  { user_properties := b.user_properties }

/-- `PropertiesBuilder::auth` projection. -/
def PropertiesBuilder.auth (b : PropertiesBuilder) : AuthProperties :=
  { authentication_method := b.authentication_method,
    authentication_data := b.authentication_data,
    reason_string := b.reason_string,
    user_properties := b.user_properties }

/-- `struct Will` (`src/v5/types.rs`). -/
structure Will where
  qos : QoS
  retain : Bool
  properties : WillProperties
  topic : List Nat
  payload : List Nat
  deriving DecidableEq, Repr

/-- `struct Connect` (`src/v5/types.rs`). -/
structure Connect where
  reserved : Bool
  clean_start_flag : Bool
  keep_alive : Nat
  properties : ConnectProperties
  client_identifier : Option (List Nat)
  username : Option (List Nat)
  password : Option (List Nat)
  will : Option Will
  deriving DecidableEq, Repr

/-- `struct ConnAck` (`src/v5/types.rs`). -/
structure ConnAck where
  session_present : Bool
  reason_code : ReasonCode
  properties : ConnAckProperties
  deriving DecidableEq, Repr

/-- `struct Publish` (`src/v5/types.rs`). -/
structure Publish where
  dup : Bool
  qos : QoS
  retain : Bool
  topic_name : List Nat
  packet_identifier : Option Nat
  properties : PublishProperties
  payload : List Nat
  deriving DecidableEq, Repr

/-- `struct PublishResponse` (`src/v5/types.rs`), shared by
PubAck/PubRec/PubRel/PubComp. -/
structure PublishResponse where
  packet_identifier : Nat
  reason_code : ReasonCode
  properties : ResponseProperties
  deriving DecidableEq, Repr

/-- `struct Disconnect` (`src/v5/types.rs`). -/
structure Disconnect where
  reason_code : ReasonCode
  properties : DisconnectProperties
  deriving DecidableEq, Repr

/-- `struct SubscriptionOptions` (`src/v5/types.rs`). -/
structure SubscriptionOptions where
  qos : QoS
  nl : Bool
  rap : Bool
  retain : Retain
  deriving DecidableEq, Repr

/-- `struct Subscribe` (`src/v5/types.rs`). -/
structure Subscribe where
  packet_identifier : Nat
  properties : SubscribeProperties
  topic_filters : List (List Nat × SubscriptionOptions)
  deriving DecidableEq, Repr

/-- `struct SubAck` (`src/v5/types.rs`). -/
structure SubAck where
  packet_identifier : Nat
  properties : ResponseProperties
  reason_codes : List ReasonCode
  deriving DecidableEq, Repr

/-- `struct UnSubscribe` (`src/v5/types.rs`). -/
structure UnSubscribe where
  packet_identifier : Nat
  properties : UnSubscribeProperties
  topic_filters : List (List Nat)
  deriving DecidableEq, Repr

/-- `struct Auth` (`src/v5/types.rs`). -/
structure Auth where
  reason_code : ReasonCode
  properties : AuthProperties
  deriving DecidableEq, Repr

/-- `enum ControlPacket` (`src/v5/types.rs`): the fifteen packet kinds. -/
inductive ControlPacket where
  | connect (m : Connect)
  | connAck (m : ConnAck)
  | publish (m : Publish)
  | pubAck (m : PublishResponse)
  | pubRec (m : PublishResponse)
  | pubRel (m : PublishResponse)
  | pubComp (m : PublishResponse)
  | subscribe (m : Subscribe)
  | subAck (m : SubAck)
  | unSubscribe (m : UnSubscribe)
  | unSubAck (m : SubAck)
  | pingReq
  | pingResp
  | disconnect (m : Disconnect)
  | auth (m : Auth)
  deriving DecidableEq, Repr

/-- `impl TryFrom<u8> for SubscriptionOptions` (`src/v5/types.rs`). -/
def SubscriptionOptions.tryFrom (v : Nat) :
    Except RunError SubscriptionOptions := do
  let qos ← QoS.tryFrom (v &&& 0x03)
  let retain ← Retain.tryFrom ((v &&& 0x30) >>> 4)
  .ok { qos, nl := (v &&& 0x04) >>> 2 ≠ 0, rap := (v &&& 0x08) >>> 3 ≠ 0,
        retain }

/-- `impl From<SubscriptionOptions> for u8`. -/
def SubscriptionOptions.toNat (o : SubscriptionOptions) : Nat :=
  o.qos.toNat ||| ((if o.nl then 1 else 0) <<< 2) |||
    ((if o.rap then 1 else 0) <<< 3) ||| (o.retain.toNat <<< 4)

/-- The `Property::UserProperty` arm shared verbatim by every property
decoder: two length-prefixed strings; the pair is kept only when both are
present. -/
def decodeUserProperty (reader : List Nat) :
    Except RunError (Option (List Nat × List Nat) × List Nat) := do
  let (k, reader) ← decodeUtf8String reader
  let (v, reader) ← decodeUtf8String reader
  match k, v with
  | some key, some value => .ok (some (key, value), reader)
  | _, _ => .ok (none, reader)

/-- Loop of `impl TryFrom<Bytes> for ResponseProperties`
(`src/v5/pubres.rs:37`).  NOTE the source routes `ReasonString` into the
builder's `response_topic` slot. -/
def responsePropertiesLoop (fuel : Nat) (reader : List Nat)
    (b : PropertiesBuilder) : Except RunError PropertiesBuilder :=
  match fuel, reader with
  | _, [] => .ok b
  | 0, _ :: _ => .error .fuelExhausted
  | fuel + 1, reader => do
      let (id, reader) ← decodeVariableInteger reader
      let property ← Property.tryFrom id
      match property with
      | .reasonString => do
          let (s, reader) ← decodeUtf8String reader
          let b ← b.setResponseTopic s
          responsePropertiesLoop fuel reader b
      | .userProperty => do
          let (kv, reader) ← decodeUserProperty reader
          let b := match kv with | some kv => b.addUserProperty kv | none => b
          responsePropertiesLoop fuel reader b
      | _ => .error (.mqtt (.unacceptableProperty property))

/-- `impl TryFrom<Bytes> for ResponseProperties` (`src/v5/pubres.rs:37`). -/
def ResponseProperties.tryFrom (reader : List Nat) :
    Except RunError ResponseProperties := do
  let b ← responsePropertiesLoop reader.length reader PropertiesBuilder.default
  .ok b.pubres

/-- Loop of `decode_subscribe_properties` (`src/v5/subscribe.rs:33`). -/
def subscribePropertiesLoop (fuel : Nat) (reader : List Nat)
    (b : PropertiesBuilder) : Except RunError PropertiesBuilder :=
  match fuel, reader with
  | _, [] => .ok b
  | 0, _ :: _ => .error .fuelExhausted
  | fuel + 1, reader => do
      let (id, reader) ← decodeVariableInteger reader
      let property ← Property.tryFrom id
      match property with
      | .subscriptionIdentifier => do
          if reader.length < 4 then
            .error (.mqtt (.endOfStream "subscription identifier"))
          else do
            let (v, reader) ← decodeVariableInteger reader
            let b ← b.setSubscriptionIdentifier v
            subscribePropertiesLoop fuel reader b
      | .userProperty => do
          let (kv, reader) ← decodeUserProperty reader
          let b := match kv with | some kv => b.addUserProperty kv | none => b
          subscribePropertiesLoop fuel reader b
      | _ => .error (.mqtt (.unacceptableProperty property))

/-- `decode_subscribe_properties` (`src/v5/subscribe.rs:33`). -/
def decodeSubscribeProperties (reader : List Nat) :
    Except RunError SubscribeProperties := do
  let b ← subscribePropertiesLoop reader.length reader
    PropertiesBuilder.default
  .ok b.subscribe

/-- Loop of `decode_publish_properties` (`src/v5/publish.rs:45`);
`CorrelationData` is `unimplemented!()` there. -/
def publishPropertiesLoop (fuel : Nat) (reader : List Nat)
    (b : PropertiesBuilder) : Except RunError PropertiesBuilder :=
  match fuel, reader with
  | _, [] => .ok b
  | 0, _ :: _ => .error .fuelExhausted
  | fuel + 1, reader => do
      let (id, reader) ← decodeVariableInteger reader
      let property ← Property.tryFrom id
      match property with
      | .payloadFormatIndicator => do
          if reader.length < 1 then
            .error (.mqtt (.endOfStream "payload format indicator"))
          else do
            let (v, reader) ← getU8 reader
            let b ← b.setPayloadFormatIndicator v
            publishPropertiesLoop fuel reader b
      | .messageExpireInterval => do
          if reader.length < 4 then
            .error (.mqtt (.endOfStream "message expire interval"))
          else do
            let (v, reader) ← getU32 reader
            let b ← b.setMessageExpireInterval v
            publishPropertiesLoop fuel reader b
      | .contentType => do
          let (s, reader) ← decodeUtf8String reader
          let b ← b.setContentType s
          publishPropertiesLoop fuel reader b
      | .responseTopic => do
          let (s, reader) ← decodeUtf8String reader
          let b ← b.setResponseTopic s
          publishPropertiesLoop fuel reader b
      | .correlationData => .error .panicked
      | .userProperty => do
          let (kv, reader) ← decodeUserProperty reader
          let b := match kv with | some kv => b.addUserProperty kv | none => b
          publishPropertiesLoop fuel reader b
      | .topicAlias => do
          if reader.length < 2 then
            .error (.mqtt (.endOfStream "topic alias"))
          else do
            let (v, reader) ← getU16 reader
            let b ← b.setTopicAlias v
            publishPropertiesLoop fuel reader b
      | .subscriptionIdentifier => do
          if reader.length < 4 then
            .error (.mqtt (.endOfStream "subscription identifier"))
          else do
            let (v, reader) ← decodeVariableInteger reader
            let b ← b.setSubscriptionIdentifier v
            publishPropertiesLoop fuel reader b
      | _ => .error (.mqtt (.unacceptableProperty property))

/-- `decode_publish_properties` (`src/v5/publish.rs:45`). -/
def decodePublishProperties (reader : List Nat) :
    Except RunError PublishProperties := do
  let b ← publishPropertiesLoop reader.length reader PropertiesBuilder.default
  .ok b.publish

/-- Loop of `impl TryFrom<Bytes> for ConnectProperties`
(`src/v5/connect.rs:102`). -/
def connectPropertiesLoop (fuel : Nat) (reader : List Nat)
    (b : PropertiesBuilder) : Except RunError PropertiesBuilder :=
  match fuel, reader with
  | _, [] => .ok b
  | 0, _ :: _ => .error .fuelExhausted
  | fuel + 1, reader => do
      let (id, reader) ← decodeVariableInteger reader
      let property ← Property.tryFrom id
      match property with
      | .sessionExpireInterval => do
          if reader.length < 4 then
            .error (.mqtt (.endOfStream "session expire interval"))
          else do
            let (v, reader) ← getU32 reader
            let b ← b.setSessionExpireInterval v
            connectPropertiesLoop fuel reader b
      | .receiveMaximum => do
          if reader.length < 2 then
            .error (.mqtt (.endOfStream "receive maximum"))
          else do
            let (v, reader) ← getU16 reader
            let b ← b.setReceiveMaximum v
            connectPropertiesLoop fuel reader b
      | .maximumPacketSize => do
          if reader.length < 4 then
            .error (.mqtt (.endOfStream "maximum packet size"))
          else do
            let (v, reader) ← getU32 reader
            let b ← b.setMaximumPacketSize v
            connectPropertiesLoop fuel reader b
      | .topicAliasMaximum => do
          if reader.length < 2 then
            .error (.mqtt (.endOfStream "topic alias maximum"))
          else do
            let (v, reader) ← getU16 reader
            let b ← b.setTopicAliasMaximum v
            connectPropertiesLoop fuel reader b
      | .requestResponseInformation => do
          if reader.length < 1 then
            .error (.mqtt (.endOfStream "request response information"))
          else do
            let (v, reader) ← getU8 reader
            let b ← b.setRequestResponseInformation v
            connectPropertiesLoop fuel reader b
      | .requestProblemInformation => do
          if reader.length < 1 then
            .error (.mqtt (.endOfStream "request problem information"))
          else do
            let (v, reader) ← getU8 reader
            let b ← b.setRequestProblemInformation v
            connectPropertiesLoop fuel reader b
      | .userProperty => do
          let (kv, reader) ← decodeUserProperty reader
          let b := match kv with | some kv => b.addUserProperty kv | none => b
          connectPropertiesLoop fuel reader b
      | .authenticationMethod => do
          let (s, reader) ← decodeUtf8String reader
          let b ← match s with
            | some m => b.setAuthenticationMethod m
            | none => .ok b
          connectPropertiesLoop fuel reader b
      | _ => .error (.mqtt (.unacceptableProperty property))

/-- `impl TryFrom<Bytes> for ConnectProperties` (`src/v5/connect.rs:102`). -/
def ConnectProperties.tryFrom (reader : List Nat) :
    Except RunError ConnectProperties := do
  let b ← connectPropertiesLoop reader.length reader PropertiesBuilder.default
  .ok b.connect

/-- Loop of `decode_connack_properties` (`src/v5/connack.rs:29`).  NOTE the
`ReasonString` arm again writes into the `response_topic` slot, and the
authentication properties are `unimplemented!()`. -/
def connackPropertiesLoop (fuel : Nat) (reader : List Nat)
    (b : PropertiesBuilder) : Except RunError PropertiesBuilder :=
  match fuel, reader with
  | _, [] => .ok b
  | 0, _ :: _ => .error .fuelExhausted
  | fuel + 1, reader => do
      let (id, reader) ← decodeVariableInteger reader
      let property ← Property.tryFrom id
      match property with
      | .sessionExpireInterval => do
          if reader.length < 4 then
            .error (.mqtt (.endOfStream "session expire interval"))
          else do
            let (v, reader) ← getU32 reader
            let b ← b.setSessionExpireInterval v
            connackPropertiesLoop fuel reader b
      | .receiveMaximum => do
          if reader.length < 2 then
            .error (.mqtt (.endOfStream "receive maximum"))
          else do
            let (v, reader) ← getU16 reader
            let b ← b.setReceiveMaximum v
            connackPropertiesLoop fuel reader b
      | .maximumQoS => do
          if reader.length < 1 then
            .error (.mqtt (.endOfStream "maximum qos"))
          else do
            let (v, reader) ← getU8 reader
            let b ← b.setMaximumQoS v
            connackPropertiesLoop fuel reader b
      | .retainAvailable => do
          if reader.length < 1 then
            .error (.mqtt (.endOfStream "retain available"))
          else do
            let (v, reader) ← getU8 reader
            let b ← b.setRetainAvailable v
            connackPropertiesLoop fuel reader b
      | .maximumPacketSize => do
          if reader.length < 4 then
            .error (.mqtt (.endOfStream "maximum packet size"))
          else do
            let (v, reader) ← getU32 reader
            let b ← b.setMaximumPacketSize v
            connackPropertiesLoop fuel reader b
      | .assignedClientIdentifier => do
          let (s, reader) ← decodeUtf8String reader
          let b ← b.setAssignedClientIdentifier s
          connackPropertiesLoop fuel reader b
      | .topicAliasMaximum => do
          if reader.length < 2 then
            .error (.mqtt (.endOfStream "topic alias maximum"))
          else do
            let (v, reader) ← getU16 reader
            let b ← b.setTopicAliasMaximum v
            connackPropertiesLoop fuel reader b
      | .reasonString => do
          let (s, reader) ← decodeUtf8String reader
          let b ← b.setResponseTopic s
          connackPropertiesLoop fuel reader b
      | .userProperty => do
          let (kv, reader) ← decodeUserProperty reader
          let b := match kv with | some kv => b.addUserProperty kv | none => b
          connackPropertiesLoop fuel reader b
      | .wildcardSubscriptionAvailable => do
          if reader.length < 1 then
            .error (.mqtt (.endOfStream "wildcard subscription available"))
          else do
            let (v, reader) ← getU8 reader
            let b ← b.setWildcardSubscriptionAvailable v
            connackPropertiesLoop fuel reader b
      | .subscriptionIdentifierAvailable => do
          if reader.length < 1 then
            .error (.mqtt (.endOfStream "subscription identifier available"))
          else do
            let (v, reader) ← getU8 reader
            let b ← b.setSubscriptionIdentifierAvailable v
            connackPropertiesLoop fuel reader b
      | .sharedSubscriptionAvailable => do
          if reader.length < 1 then
            .error (.mqtt (.endOfStream "shared subscription available"))
          else do
            let (v, reader) ← getU8 reader
            let b ← b.setSharedSubscriptionAvailable v
            connackPropertiesLoop fuel reader b
      | .serverKeepAlive => do
          if reader.length < 2 then
            .error (.mqtt (.endOfStream "server keep alive"))
          else do
            let (v, reader) ← getU16 reader
            let b ← b.setServerKeepAlive v
            connackPropertiesLoop fuel reader b
      | .authenticationMethod => .error .panicked
      | .authenticationData => .error .panicked
      | _ => .error (.mqtt (.unacceptableProperty property))

/-- `decode_connack_properties` (`src/v5/connack.rs:29`). -/
def decodeConnackProperties (reader : List Nat) :
    Except RunError ConnAckProperties := do
  let b ← connackPropertiesLoop reader.length reader PropertiesBuilder.default
  .ok b.connack

/-- Loop of `decode_disconnect_properties` (`src/v5/disconnect.rs:33`); the
`ReasonString` arm writes into the `response_topic` slot here as well. -/
def disconnectPropertiesLoop (fuel : Nat) (reader : List Nat)
    (b : PropertiesBuilder) : Except RunError PropertiesBuilder :=
  match fuel, reader with
  | _, [] => .ok b
  | 0, _ :: _ => .error .fuelExhausted
  | fuel + 1, reader => do
      let (id, reader) ← decodeVariableInteger reader
      let property ← Property.tryFrom id
      match property with
      | .sessionExpireInterval => do
          if reader.length < 4 then
            .error (.mqtt (.endOfStream "session expire interval"))
          else do
            let (v, reader) ← getU32 reader
            let b ← b.setSessionExpireInterval v
            disconnectPropertiesLoop fuel reader b
      | .userProperty => do
          let (kv, reader) ← decodeUserProperty reader
          let b := match kv with | some kv => b.addUserProperty kv | none => b
          disconnectPropertiesLoop fuel reader b
      | .reasonString => do
          let (s, reader) ← decodeUtf8String reader
          let b ← b.setResponseTopic s
          disconnectPropertiesLoop fuel reader b
      | .serverReference => do
          let (s, reader) ← decodeUtf8String reader
          let b ← b.setServerReference s
          disconnectPropertiesLoop fuel reader b
      | _ => .error (.mqtt (.unacceptableProperty property))

/-- `decode_disconnect_properties` (`src/v5/disconnect.rs:33`). -/
def decodeDisconnectProperties (reader : List Nat) :
    Except RunError DisconnectProperties := do
  let b ← disconnectPropertiesLoop reader.length reader
    PropertiesBuilder.default
  .ok b.disconnect

/-- Loop of `decode_unsubscribe_properties` (`src/v5/unsubscribe.rs:27`). -/
def unsubscribePropertiesLoop (fuel : Nat) (reader : List Nat)
    (b : PropertiesBuilder) : Except RunError PropertiesBuilder :=
  match fuel, reader with
  | _, [] => .ok b
  | 0, _ :: _ => .error .fuelExhausted
  | fuel + 1, reader => do
      let (id, reader) ← decodeVariableInteger reader
      let property ← Property.tryFrom id
      match property with
      | .userProperty => do
          let (kv, reader) ← decodeUserProperty reader
          let b := match kv with | some kv => b.addUserProperty kv | none => b
          unsubscribePropertiesLoop fuel reader b
      | _ => .error (.mqtt (.unacceptableProperty property))

/-- `decode_unsubscribe_properties` (`src/v5/unsubscribe.rs:27`). -/
def decodeUnsubscribeProperties (reader : List Nat) :
    Except RunError UnSubscribeProperties := do
  let b ← unsubscribePropertiesLoop reader.length reader
    PropertiesBuilder.default
  .ok b.unsubscribe

/-- Loop of `impl TryFrom<Bytes> for WillProperties` (`src/v5/will.rs:15`);
`CorrelationData` is `unimplemented!()`. -/
def willPropertiesLoop (fuel : Nat) (reader : List Nat)
    (b : PropertiesBuilder) : Except RunError PropertiesBuilder :=
  match fuel, reader with
  | _, [] => .ok b
  | 0, _ :: _ => .error .fuelExhausted
  | fuel + 1, reader => do
      let (id, reader) ← decodeVariableInteger reader
      let property ← Property.tryFrom id
      match property with
      | .willDelayInterval => do
          if reader.length < 4 then
            .error (.mqtt (.endOfStream "will delay interval"))
          else do
            let (v, reader) ← getU32 reader
            let b ← b.setWillDelayInterval v
            willPropertiesLoop fuel reader b
      | .payloadFormatIndicator => do
          if reader.length < 1 then
            .error (.mqtt (.endOfStream "will payload format indicator"))
          else do
            let (v, reader) ← getU8 reader
            let b ← b.setPayloadFormatIndicator v
            willPropertiesLoop fuel reader b
      | .messageExpireInterval => do
          if reader.length < 4 then
            .error (.mqtt (.endOfStream "will message expire interval"))
          else do
            let (v, reader) ← getU32 reader
            let b ← b.setMessageExpireInterval v
            willPropertiesLoop fuel reader b
      | .contentType => do
          let (s, reader) ← decodeUtf8String reader
          let b ← b.setContentType s
          willPropertiesLoop fuel reader b
      | .responseTopic => do
          let (s, reader) ← decodeUtf8String reader
          let b ← b.setResponseTopic s
          willPropertiesLoop fuel reader b
      | .correlationData => .error .panicked
      | .userProperty => do
          let (kv, reader) ← decodeUserProperty reader
          let b := match kv with | some kv => b.addUserProperty kv | none => b
          willPropertiesLoop fuel reader b
      | _ => .error (.mqtt (.unacceptableProperty property))

/-- `impl TryFrom<Bytes> for WillProperties` (`src/v5/will.rs:15`). -/
def WillProperties.tryFrom (reader : List Nat) :
    Except RunError WillProperties := do
  let b ← willPropertiesLoop reader.length reader PropertiesBuilder.default
  .ok b.will

/-- Loop of `impl TryFrom<Bytes> for AuthProperties` (`src/v5/auth.rs:28`);
`AuthenticationData` is `unimplemented!()` and `ReasonString` writes into the
`response_topic` slot. -/
def authPropertiesLoop (fuel : Nat) (reader : List Nat)
    (b : PropertiesBuilder) : Except RunError PropertiesBuilder :=
  match fuel, reader with
  | _, [] => .ok b
  | 0, _ :: _ => .error .fuelExhausted
  | fuel + 1, reader => do
      let (id, reader) ← decodeVariableInteger reader
      let property ← Property.tryFrom id
      match property with
      | .authenticationMethod => do
          let (s, reader) ← decodeUtf8String reader
          let b ← match s with
            | some m => b.setAuthenticationMethod m
            | none => .ok b
          authPropertiesLoop fuel reader b
      | .authenticationData => .error .panicked
      | .reasonString => do
          let (s, reader) ← decodeUtf8String reader
          let b ← b.setResponseTopic s
          authPropertiesLoop fuel reader b
      | .userProperty => do
          let (kv, reader) ← decodeUserProperty reader
          let b := match kv with | some kv => b.addUserProperty kv | none => b
          authPropertiesLoop fuel reader b
      | _ => .error (.mqtt (.unacceptableProperty property))

/-- `impl TryFrom<Bytes> for AuthProperties` (`src/v5/auth.rs:28`). -/
def AuthProperties.tryFrom (reader : List Nat) :
    Except RunError AuthProperties := do
  let b ← authPropertiesLoop reader.length reader PropertiesBuilder.default
  .ok b.auth

/-- `impl TryFrom<Bytes> for PublishResponse` (`src/v5/pubres.rs:13`):
`packet_id:u16 · [reason:u8 · properties]`, with `Success` and no properties
implied when the body ends after the identifier.  The properties region is
taken with `Bytes::slice(..len)` (panics when `len` overruns the body). -/
def PublishResponse.tryFrom (reader : List Nat) :
    Except RunError PublishResponse := do
  if reader.length < 2 then
    .error (.mqtt (.endOfStream "pubres variable header"))
  else do
    let (packet_identifier, reader) ← getU16 reader
    let (reason_code, properties_length, reader) ←
      if reader.length ≠ 0 then do
        let (rb, reader) ← getU8 reader
        let rc ← ReasonCode.tryFrom rb
        let (plen, reader) ← decodeVariableInteger reader
        pure (rc, plen, reader)
      else
        pure (ReasonCode.success, 0, reader)
    let propBytes ← sliceTo properties_length reader
    let properties ← ResponseProperties.tryFrom propBytes
    .ok { packet_identifier, reason_code, properties }

/-- The SubAck reason-code loop (`while reader.has_remaining()` over
`ReasonCode::try_from(reader.get_u8())`). -/
def readReasonCodes : List Nat → Except RunError (List ReasonCode)
  | [] => .ok []
  | b :: rest => do
      let rc ← ReasonCode.tryFrom b
      let rcs ← readReasonCodes rest
      .ok (rc :: rcs)

/-- `impl TryFrom<Bytes> for SubAck` (`src/v5/subscribe.rs:161`).  The
properties region is read with `Bytes::slice(..len)`, which does NOT advance
the reader, so the subsequent reason-code loop starts at the beginning of the
properties region. -/
def SubAck.tryFrom (reader : List Nat) : Except RunError SubAck := do
  if reader.length < 2 then
    .error (.mqtt (.endOfStream "suback packet_identifier"))
  else do
    let (packet_identifier, reader) ← getU16 reader
    let (properties_length, reader) ← decodeVariableInteger reader
    let propBytes ← sliceTo properties_length reader
    let properties ← ResponseProperties.tryFrom propBytes
    let reason_codes ← readReasonCodes reader
    .ok { packet_identifier, properties, reason_codes }

/-- `decode_publish` (`src/v5/publish.rs:17`): topic, an identifier only for
QoS above 0, properties, and the rest of the body as payload. -/
def decodePublish (dup : Bool) (qos : QoS) (retain : Bool)
    (reader : List Nat) : Except RunError (Option ControlPacket) := do
  if reader.length < 3 then
    .error (.mqtt (.endOfStream "publish topic name"))
  else do
    let (topicOpt, reader) ← decodeUtf8String reader
    let topic_name ← match topicOpt with
      | some t => pure t
      | none => .error (.mqtt (.topicFilterInvalid ""))
    let (packet_identifier, reader) ←
      if qos = QoS.atMostOnce then
        pure ((none : Option Nat), reader)
      else
        if reader.length < 2 then
          .error (.mqtt (.endOfStream "publish packet identifier"))
        else do
          let (pid, reader) ← getU16 reader
          pure (some pid, reader)
    let (properties_length, reader) ← decodeVariableInteger reader
    let (propBytes, reader) ← splitTo properties_length reader
    let properties ← decodePublishProperties propBytes
    .ok (some (.publish { dup, qos, retain, topic_name, packet_identifier,
                          properties, payload := reader }))

/-- Loop of `decode_subscribe_payload` (`src/v5/subscribe.rs:58`): repeated
`topic_filter:string · options:u8`. -/
def subscribePayloadLoop (fuel : Nat) (reader : List Nat)
    (acc : List (List Nat × SubscriptionOptions)) :
    Except RunError (List (List Nat × SubscriptionOptions)) :=
  match fuel, reader with
  | _, [] => .ok acc
  | 0, _ :: _ => .error .fuelExhausted
  | fuel + 1, reader => do
      let (topicOpt, reader) ← decodeUtf8String reader
      match topicOpt with
      | some topic =>
          if reader.length < 1 then
            .error (.mqtt (.endOfStream "subscription option"))
          else do
            let (ob, reader) ← getU8 reader
            let opt ← SubscriptionOptions.tryFrom ob
            subscribePayloadLoop fuel reader (acc ++ [(topic, opt)])
      | none => .error (.mqtt (.topicFilterInvalid ""))

/-- `decode_subscribe_payload` (`src/v5/subscribe.rs:58`). -/
def decodeSubscribePayload (reader : List Nat) :
    Except RunError (List (List Nat × SubscriptionOptions)) :=
  subscribePayloadLoop reader.length reader []

/-- `decode_subscribe` (`src/v5/subscribe.rs:20`). -/
def decodeSubscribe (reader : List Nat) :
    Except RunError (Option ControlPacket) := do
  if reader.length < 2 then
    .error (.mqtt (.endOfStream "subscribe packet identifier"))
  else do
    let (packet_identifier, reader) ← getU16 reader
    let (properties_length, reader) ← decodeVariableInteger reader
    let (propBytes, reader) ← splitTo properties_length reader
    let properties ← decodeSubscribeProperties propBytes
    let topic_filters ← decodeSubscribePayload reader
    .ok (some (.subscribe { packet_identifier, properties, topic_filters }))

/-- Loop of `decode_unsubscribe_payload` (`src/v5/unsubscribe.rs:50`). -/
def unsubscribePayloadLoop (fuel : Nat) (reader : List Nat)
    (acc : List (List Nat)) : Except RunError (List (List Nat)) :=
  match fuel, reader with
  | _, [] => .ok acc
  | 0, _ :: _ => .error .fuelExhausted
  | fuel + 1, reader => do
      let (topicOpt, reader) ← decodeUtf8String reader
      match topicOpt with
      | some topic => unsubscribePayloadLoop fuel reader (acc ++ [topic])
      | none => .error (.mqtt (.topicFilterInvalid ""))

/-- `decode_unsubscribe` (`src/v5/unsubscribe.rs:14`). -/
def decodeUnsubscribe (reader : List Nat) :
    Except RunError (Option ControlPacket) := do
  if reader.length < 2 then
    .error (.mqtt (.endOfStream "unsubscribe packet identifier"))
  else do
    let (packet_identifier, reader) ← getU16 reader
    let (properties_length, reader) ← decodeVariableInteger reader
    let (propBytes, reader) ← splitTo properties_length reader
    let properties ← decodeUnsubscribeProperties propBytes
    let topic_filters ← unsubscribePayloadLoop reader.length reader []
    .ok (some (.unSubscribe { packet_identifier, properties, topic_filters }))

/-- `decode_connack` (`src/v5/connack.rs:15`). -/
def decodeConnack (reader : List Nat) :
    Except RunError (Option ControlPacket) := do
  if reader.length < 3 then
    .error (.mqtt (.endOfStream "connack flags"))
  else do
    let (flags, reader) ← getU8 reader
    let (rb, reader) ← getU8 reader
    let reason_code ← ReasonCode.tryFrom rb
    let (properties_length, reader) ← decodeVariableInteger reader
    let (propBytes, _) ← splitTo properties_length reader
    let properties ← decodeConnackProperties propBytes
    .ok (some (.connAck { session_present := flags &&& 0x01 ≠ 0, reason_code,
                          properties }))

/-- `decode_disconnect` (`src/v5/disconnect.rs:15`): both the reason byte and
the properties region are optional. -/
def decodeDisconnect (reader : List Nat) :
    Except RunError (Option ControlPacket) := do
  let (reason_code, reader) ←
    if reader.length > 0 then do
      let (rb, reader) ← getU8 reader
      let rc ← ReasonCode.tryFrom rb
      pure (rc, reader)
    else
      pure (ReasonCode.success, reader)
  let (properties_length, reader) ←
    if reader.length > 0 then decodeVariableInteger reader
    else pure (0, reader)
  let (propBytes, _) ← splitTo properties_length reader
  let properties ← decodeDisconnectProperties propBytes
  .ok (some (.disconnect { reason_code, properties }))

/-- `impl TryFrom<Bytes> for Auth` (`src/v5/auth.rs:13`); the properties are
taken with `Bytes::slice(..len)`. -/
def Auth.tryFrom (reader : List Nat) : Except RunError Auth := do
  if reader.length < 1 then
    .error (.mqtt (.endOfStream "auth reason code"))
  else do
    let (rb, reader) ← getU8 reader
    let reason_code ← ReasonCode.tryFrom rb
    let (properties_length, reader) ← decodeVariableInteger reader
    let propBytes ← sliceTo properties_length reader
    let properties ← AuthProperties.tryFrom propBytes
    .ok { reason_code, properties }

/-- Whether the next byte of a UTF-8 sequence is a continuation byte. -/
def utf8Cont (b : Nat) : Bool := 0x80 ≤ b && b ≤ 0xBF

/-- `String::from_utf8` validity (RFC 3629), used by the Connect decoder for
the protocol-name bytes. -/
def utf8Valid : List Nat → Bool
  | [] => true
  | b :: rest =>
      if b < 0x80 then utf8Valid rest
      else if 0xC2 ≤ b && b ≤ 0xDF then
        match rest with
        | c1 :: r => utf8Cont c1 && utf8Valid r
        | _ => false
      else if b = 0xE0 then
        match rest with
        | c1 :: c2 :: r => (0xA0 ≤ c1 && c1 ≤ 0xBF) && utf8Cont c2 &&
            utf8Valid r
        | _ => false
      else if (0xE1 ≤ b && b ≤ 0xEC) || b = 0xEE || b = 0xEF then
        match rest with
        | c1 :: c2 :: r => utf8Cont c1 && utf8Cont c2 && utf8Valid r
        | _ => false
      else if b = 0xED then
        match rest with
        | c1 :: c2 :: r => (0x80 ≤ c1 && c1 ≤ 0x9F) && utf8Cont c2 &&
            utf8Valid r
        | _ => false
      else if b = 0xF0 then
        match rest with
        | c1 :: c2 :: c3 :: r => (0x90 ≤ c1 && c1 ≤ 0xBF) && utf8Cont c2 &&
            utf8Cont c3 && utf8Valid r
        | _ => false
      else if 0xF1 ≤ b && b ≤ 0xF3 then
        match rest with
        | c1 :: c2 :: c3 :: r => utf8Cont c1 && utf8Cont c2 && utf8Cont c3 &&
            utf8Valid r
        | _ => false
      else if b = 0xF4 then
        match rest with
        | c1 :: c2 :: c3 :: r => (0x80 ≤ c1 && c1 ≤ 0x8F) && utf8Cont c2 &&
            utf8Cont c3 && utf8Valid r
        | _ => false
      else false

/-- The four bytes of the protocol-name literal `"MQTT"`. -/
def mqttBytes : List Nat := [0x4D, 0x51, 0x54, 0x54]

/-- Render bytes as the `String` carried inside an error payload (exact for
the ASCII payloads that occur here; no theorem below inspects it). -/
def bytesAsString (bs : List Nat) : String :=
  String.mk (bs.map Char.ofNat)

/-- `impl TryFrom<Bytes> for Connect` (`src/v5/connect.rs:18`). -/
def Connect.tryFrom (reader : List Nat) : Except RunError Connect := do
  let (protocolOpt, reader) ← decodeUtf8String reader
  match protocolOpt with
  | some protocol =>
      if ¬ utf8Valid protocol then .error (.mqtt .fromUtf8Error)
      else if protocol ≠ mqttBytes then
        .error (.mqtt (.unsupportedProtocolVersion (bytesAsString protocol)))
      else do
        if reader.length < 4 then
          .error (.mqtt (.endOfStream "connect version"))
        else do
          let (version, reader) ← getU8 reader
          if version ≠ 5 then
            .error (.mqtt (.unsupportedProtocolVersion (toString version)))
          else do
            let (flags, reader) ← getU8 reader
            let will_qos_flag ← QoS.tryFrom ((flags &&& 0x18) >>> 3)
            let reserved := flags &&& 0x01 ≠ 0
            if reserved then .error (.mqtt .malformedPacket)
            else do
              let (keep_alive, reader) ← getU16 reader
              let (properties_length, reader) ← decodeVariableInteger reader
              let (propBytes, reader) ← splitTo properties_length reader
              let properties ← ConnectProperties.tryFrom propBytes
              let (client_identifier, reader) ← decodeUtf8String reader
              let (will, reader) ←
                if flags &&& 0x04 ≠ 0 then do
                  let (wlen, reader) ← decodeVariableInteger reader
                  let (wpropBytes, reader) ← splitTo wlen reader
                  let wprops ← WillProperties.tryFrom wpropBytes
                  let (topicOpt, reader) ← decodeUtf8String reader
                  let topic ← match topicOpt with
                    | some t => pure t
                    | none =>
                        .error (.mqtt (.unspecifiedError
                          "will topic is missing"))
                  let (payload_len, reader) ← getU16 reader
                  let (payload, reader) ← splitTo payload_len reader
                  pure (some { qos := will_qos_flag,
                               retain := flags &&& 0x20 ≠ 0,
                               properties := wprops, topic, payload }, reader)
                else
                  pure ((none : Option Will), reader)
              let (username, reader) ←
                if flags &&& 0x80 ≠ 0 then decodeUtf8String reader
                else pure ((none : Option (List Nat)), reader)
              let (password, _) ←
                if flags &&& 0x40 ≠ 0 then do
                  let (len, reader) ← getU16 reader
                  let (pw, reader) ← splitTo len reader
                  pure (some pw, reader)
                else pure ((none : Option (List Nat)), reader)
              .ok { reserved, clean_start_flag := flags &&& 0x02 ≠ 0,
                    keep_alive, properties, client_identifier, username,
                    password, will }
  | none => .error (.mqtt (.unsupportedProtocolVersion ""))

/-- `enum PacketPart` (`src/v5/types.rs`): the two framing states. -/
inductive PacketPart where
  | fixedHeader
  | variableHeader (remaining : Nat) (packet_type : PacketType)
  deriving DecidableEq, Repr

/-- `struct MqttCodec` (`src/v5/types.rs`). -/
structure MqttCodec where
  maximum_packet_size : Option Nat
  part : PacketPart
  deriving DecidableEq, Repr

/-- `MqttCodec::new`. -/
def MqttCodec.new (maximum_packet_size : Option Nat) : MqttCodec :=
  { maximum_packet_size, part := .fixedHeader }

/-- Per-packet dispatch of the framing decoder
(`src/v5/decoder.rs:61`-`88`); `UnSubAck` is `unimplemented!()`. -/
def decodeBody (packet_type : PacketType) (packet : List Nat) :
    Except RunError (Option ControlPacket) :=
  match packet_type with
  | .connect => do
      let c ← Connect.tryFrom packet
      .ok (some (.connect c))
  | .connAck => decodeConnack packet
  | .publish dup qos retain => decodePublish dup qos retain packet
  | .pubAck => do
      let r ← PublishResponse.tryFrom packet
      .ok (some (.pubAck r))
  | .pubRec => do
      let r ← PublishResponse.tryFrom packet
      .ok (some (.pubRec r))
  | .pubRel => do
      let r ← PublishResponse.tryFrom packet
      .ok (some (.pubRel r))
  | .pubComp => do
      let r ← PublishResponse.tryFrom packet
      .ok (some (.pubComp r))
  | .subscribe => decodeSubscribe packet
  | .subAck => do
      let s ← SubAck.tryFrom packet
      .ok (some (.subAck s))
  | .unSubscribe => decodeUnsubscribe packet
  | .unSubAck => .error .panicked
  | .pingReq => .ok (some .pingReq)
  | .pingResp => .ok (some .pingResp)
  | .disconnect => decodeDisconnect packet
  | .auth => do
      let a ← Auth.tryFrom packet
      .ok (some (.auth a))

/-- The `PacketPart::VariableHeader` arm of `MqttCodec::decode`: wait for
`remaining` bytes, detach them as the body, reset the state and dispatch. -/
def decodeVariableHeaderPhase (maxps : Option Nat) (remaining : Nat)
    (packet_type : PacketType) (reader : List Nat) :
    Except RunError (Option ControlPacket × MqttCodec × List Nat) :=
  if reader.length < remaining then
    .ok (none, ⟨maxps, .variableHeader remaining packet_type⟩, reader)
  else do
    let packet := reader.take remaining
    let decoded ← decodeBody packet_type packet
    .ok (decoded, ⟨maxps, .fixedHeader⟩, reader.drop remaining)

/-- `impl Decoder for MqttCodec` (`src/v5/decoder.rs:27`).  Returns the
emitted packet (or `none` for "need more bytes"), the post-state, and the
unconsumed input. -/
def MqttCodec.decode (c : MqttCodec) (reader : List Nat) :
    Except RunError (Option ControlPacket × MqttCodec × List Nat) :=
  match c.part with
  | .fixedHeader =>
      if reader.length < 2 then .ok (none, c, reader)
      else do
        let (tb, reader) ← getU8 reader
        let packet_type ← PacketType.tryFrom tb
        let (remaining, reader) ← decodeVariableInteger reader
        if c.maximum_packet_size.any (fun m => remaining + 2 > m) then
          .error (.mqtt .packetTooLarge)
        else
          decodeVariableHeaderPhase c.maximum_packet_size remaining
            packet_type reader
  | .variableHeader remaining packet_type =>
      decodeVariableHeaderPhase c.maximum_packet_size remaining packet_type
        reader

/-! Encoding.  The `encode_property_*` macros of `src/v5/property.rs` become
the helpers below; an absent option writes nothing. -/

/-- `encode_property_u8!`: property id byte then the `u8` value. -/
def encodePropertyU8 (p : Property) (v : Option Nat) : List Nat :=
  match v with
  | some x => p.toNat :: [x]
  | none => []

/-- `encode_property_u16!`. -/
def encodePropertyU16 (p : Property) (v : Option Nat) : List Nat :=
  match v with
  | some x => p.toNat :: putU16 x
  | none => []

/-- `encode_property_u32!`. -/
def encodePropertyU32 (p : Property) (v : Option Nat) : List Nat :=
  match v with
  | some x => p.toNat :: putU32 x
  | none => []

/-- `encode_property_string!`. -/
def encodePropertyString (p : Property) (v : Option (List Nat)) : List Nat :=
  match v with
  | some s => p.toNat :: encodeUtf8String s
  | none => []

/-- `encode_property_bytes!`: id, `u16` length, bytes. -/
def encodePropertyBytes (p : Property) (v : Option (List Nat)) : List Nat :=
  match v with
  | some s => p.toNat :: (putU16 s.length ++ s)
  | none => []

/-- `encode_property_variable_integer!`. -/
def encodePropertyVarInt (p : Property) (v : Option Nat) : List Nat :=
  match v with
  | some x => p.toNat :: encodeVariableInteger x
  | none => []

/-- `encode_property_user_properties!`: one id-string-string triple per
pair. -/
def encodeUserProperties (p : Property)
    (kvs : List (List Nat × List Nat)) : List Nat :=
  (kvs.map (fun kv =>
    p.toNat :: (encodeUtf8String kv.1 ++ encodeUtf8String kv.2))).flatten

/-- A `bool as u8` cast. -/
def boolToNat (b : Bool) : Nat := if b then 1 else 0

/-- `check_size_of_string!` for one optional string slot: `len + 3` (id byte
plus `u16` length prefix) or 0. -/
def sizeOfOptString (v : Option (List Nat)) : Nat :=
  match v with
  | some s => s.length + 3
  | none => 0

/-- The user-property summand `5 + key.len() + value.len()` shared by every
`PropertiesSize` impl. -/
def sizeOfUserProperties (kvs : List (List Nat × List Nat)) : Nat :=
  (kvs.map (fun kv => 5 + kv.1.length + kv.2.length)).sum

/-- `impl PropertiesSize for ResponseProperties` (`src/v5/pubres.rs:98`). -/
def ResponseProperties.size (p : ResponseProperties) : Nat :=
  sizeOfOptString p.reason_string + sizeOfUserProperties p.user_properties

/-- `impl RemainingLength for PublishResponse` (`src/v5/pubres.rs:91`). -/
def PublishResponse.remainingLength (m : PublishResponse) : Nat :=
  3 + usizeSize m.properties.size + m.properties.size

/-- `impl PropertiesSize for SubscribeProperties`
(`src/v5/subscribe.rs:87`). -/
def SubscribeProperties.size (p : SubscribeProperties) : Nat :=
  (match p.subscription_identifier with
   | some id => usizeSize id
   | none => 0) + sizeOfUserProperties p.user_properties

/-- `impl RemainingLength for Subscribe` (`src/v5/subscribe.rs:74`). -/
def Subscribe.remainingLength (m : Subscribe) : Nat :=
  2 + usizeSize m.properties.size + m.properties.size +
    (m.topic_filters.map (fun tf => 2 + tf.1.length + 1)).sum

/-- `impl RemainingLength for SubAck` (`src/v5/subscribe.rs:135`). -/
def SubAck.remainingLength (m : SubAck) : Nat :=
  2 + usizeSize m.properties.size + m.properties.size + m.reason_codes.length

/-- `impl PropertiesSize for PublishProperties` (`src/v5/publish.rs:132`).
The `correlation_data` summand comes from `check_size_of!`, i.e.
`size_of_val::<Bytes>() + 1 = 33` regardless of the payload (encoding such a
bundle is `unimplemented!()` anyway). -/
def PublishProperties.size (p : PublishProperties) : Nat :=
  (match p.payload_format_indicator with | some _ => 2 | none => 0) +
  (match p.message_expire_interval with | some _ => 5 | none => 0) +
  (match p.topic_alias with | some _ => 3 | none => 0) +
  sizeOfOptString p.response_topic +
  (match p.correlation_data with | some _ => 33 | none => 0) +
  sizeOfUserProperties p.user_properties +
  (match p.subscription_identifier with | some i => usizeSize i | none => 0) +
  sizeOfOptString p.content_type

/-- `impl RemainingLength for Publish` (`src/v5/publish.rs:114`). -/
def Publish.remainingLength (m : Publish) : Nat :=
  m.topic_name.length + 2 +
    (if m.packet_identifier.isSome then 2 else 0) +
    usizeSize m.properties.size + m.properties.size + m.payload.length

/-- `impl PropertiesSize for ConnectProperties` (`src/v5/connect.rs:234`). -/
def ConnectProperties.size (p : ConnectProperties) : Nat :=
  (match p.session_expire_interval with | some _ => 5 | none => 0) +
  (match p.receive_maximum with | some _ => 3 | none => 0) +
  (match p.maximum_packet_size with | some _ => 5 | none => 0) +
  (match p.topic_alias_maximum with | some _ => 3 | none => 0) +
  (match p.request_response_information with | some _ => 2 | none => 0) +
  (match p.request_problem_information with | some _ => 2 | none => 0) +
  sizeOfUserProperties p.user_properties +
  sizeOfOptString p.authentication_method

/-- `impl PropertiesSize for WillProperties` (`src/v5/will.rs:77`); the
`will_delay_interval` slot is always counted. -/
def WillProperties.size (p : WillProperties) : Nat :=
  4 + 1 +
  (match p.payload_format_indicator with | some _ => 2 | none => 0) +
  (match p.message_expire_interval with | some _ => 5 | none => 0) +
  sizeOfOptString p.content_type +
  sizeOfOptString p.response_topic +
  (match p.correlation_data with | some s => s.length + 3 | none => 0) +
  sizeOfUserProperties p.user_properties

/-- `impl PropertiesSize for Will` (`src/v5/will.rs:59`). -/
def Will.size (w : Will) : Nat :=
  usizeSize w.properties.size + w.properties.size + w.topic.length + 4 +
    w.payload.length

/-- `impl RemainingLength for Connect` (`src/v5/connect.rs:218`). -/
def Connect.remainingLength (m : Connect) : Nat :=
  10 + usizeSize m.properties.size + m.properties.size +
    (match m.client_identifier with | some s => 2 + s.length | none => 2) +
    (match m.will with | some w => w.size | none => 0) +
    (match m.username with | some u => 2 + u.length | none => 0) +
    (match m.password with | some pw => 2 + pw.length | none => 0)

/-- `impl PropertiesSize for ConnAckProperties` (`src/v5/connack.rs:150`). -/
def ConnAckProperties.size (p : ConnAckProperties) : Nat :=
  (match p.session_expire_interval with | some _ => 5 | none => 0) +
  (match p.receive_maximum with | some _ => 3 | none => 0) +
  (match p.maximum_qos with | some _ => 2 | none => 0) +
  (match p.retain_available with | some _ => 2 | none => 0) +
  (match p.maximum_packet_size with | some _ => 5 | none => 0) +
  sizeOfOptString p.assigned_client_identifier +
  (match p.topic_alias_maximum with | some _ => 3 | none => 0) +
  sizeOfOptString p.reason_string +
  sizeOfUserProperties p.user_properties

/-- `impl RemainingLength for ConnAck` (`src/v5/connack.rs:143`). -/
def ConnAck.remainingLength (m : ConnAck) : Nat :=
  2 + usizeSize m.properties.size + m.properties.size

/-- `impl PropertiesSize for DisconnectProperties`
(`src/v5/disconnect.rs:80`). -/
def DisconnectProperties.size (p : DisconnectProperties) : Nat :=
  (match p.session_expire_interval with | some _ => 5 | none => 0) +
  sizeOfOptString p.reason_string +
  sizeOfUserProperties p.user_properties +
  sizeOfOptString p.server_reference

/-- `impl RemainingLength for Disconnect` (`src/v5/disconnect.rs:64`). -/
def Disconnect.remainingLength (m : Disconnect) : Nat :=
  1 + usizeSize m.properties.size + m.properties.size

/-- `impl Encoder<ResponseProperties> for MqttCodec`
(`src/v5/pubres.rs:75`): length varint, reason string, user properties. -/
def encodeResponseProperties (p : ResponseProperties) : List Nat :=
  encodeVariableInteger p.size ++
    encodePropertyString .reasonString p.reason_string ++
    encodeUserProperties .userProperty p.user_properties

/-- `impl Encoder<PublishResponse> for MqttCodec` (`src/v5/pubres.rs:65`):
the reason byte and properties are always written. -/
def encodePublishResponse (m : PublishResponse) : List Nat :=
  putU16 m.packet_identifier ++ [m.reason_code.toNat] ++
    encodeResponseProperties m.properties

/-- `impl Encoder<SubscribeProperties> for MqttCodec`
(`src/v5/subscribe.rs:116`). -/
def encodeSubscribeProperties (p : SubscribeProperties) : List Nat :=
  encodeVariableInteger p.size ++
    encodePropertyVarInt .subscriptionIdentifier p.subscription_identifier ++
    encodeUserProperties .userProperty p.user_properties

/-- `impl Encoder<Subscribe> for MqttCodec` (`src/v5/subscribe.rs:102`). -/
def encodeSubscribe (m : Subscribe) : List Nat :=
  putU16 m.packet_identifier ++ encodeSubscribeProperties m.properties ++
    (m.topic_filters.map (fun tf =>
      encodeUtf8String tf.1 ++ [tf.2.toNat])).flatten

/-- `impl Encoder<SubAck> for MqttCodec` (`src/v5/subscribe.rs:148`). -/
def encodeSubAck (m : SubAck) : List Nat :=
  putU16 m.packet_identifier ++ encodeResponseProperties m.properties ++
    m.reason_codes.map ReasonCode.toNat

/-- `impl Encoder<PublishProperties> for MqttCodec`
(`src/v5/publish.rs:152`); a present `correlation_data` is
`unimplemented!()`. -/
def encodePublishProperties (p : PublishProperties) :
    Except RunError (List Nat) :=
  if p.correlation_data.isSome then .error .panicked
  else
    .ok (encodeVariableInteger p.size ++
      encodePropertyU8 .payloadFormatIndicator
        (p.payload_format_indicator.map boolToNat) ++
      encodePropertyU32 .messageExpireInterval p.message_expire_interval ++
      encodePropertyU16 .topicAlias p.topic_alias ++
      encodePropertyString .responseTopic p.response_topic ++
      encodeUserProperties .userProperty p.user_properties ++
      encodePropertyVarInt .subscriptionIdentifier
        p.subscription_identifier ++
      encodePropertyString .contentType p.content_type)

/-- `impl Encoder<Publish> for MqttCodec` (`src/v5/publish.rs:89`): a QoS
above 0 without a packet identifier is `UndefinedPacketIdentifier`. -/
def encodePublishBody (m : Publish) : Except RunError (List Nat) := do
  let pidBytes ←
    if QoS.atMostOnce ≠ m.qos then
      match m.packet_identifier with
      | some pid => pure (putU16 pid)
      | none => .error (.mqtt (.undefinedPacketIdentifier m.qos))
    else
      pure []
  let props ← encodePublishProperties m.properties
  .ok (encodeUtf8String m.topic_name ++ pidBytes ++ props ++ m.payload)

/-- `impl Encoder<ConnectProperties> for MqttCodec`
(`src/v5/connect.rs:156`). -/
def encodeConnectProperties (p : ConnectProperties) : List Nat :=
  encodeVariableInteger p.size ++
    encodePropertyU32 .sessionExpireInterval p.session_expire_interval ++
    encodePropertyU16 .receiveMaximum p.receive_maximum ++
    encodePropertyU32 .maximumPacketSize p.maximum_packet_size ++
    encodePropertyU16 .topicAliasMaximum p.topic_alias_maximum ++
    encodePropertyU8 .requestResponseInformation
      (p.request_response_information.map boolToNat) ++
    encodePropertyU8 .requestProblemInformation
      (p.request_problem_information.map boolToNat) ++
    encodeUserProperties .userProperty p.user_properties ++
    encodePropertyString .authenticationMethod p.authentication_method

/-- `impl Encoder<WillProperties> for MqttCodec` (`src/v5/will.rs:94`). -/
def encodeWillProperties (p : WillProperties) : List Nat :=
  encodeVariableInteger p.size ++
    encodePropertyU32 .willDelayInterval (some p.will_delay_interval) ++
    encodePropertyU8 .payloadFormatIndicator
      (p.payload_format_indicator.map boolToNat) ++
    encodePropertyU32 .messageExpireInterval p.message_expire_interval ++
    encodePropertyString .contentType p.content_type ++
    encodePropertyString .responseTopic p.response_topic ++
    encodePropertyBytes .correlationData p.correlation_data ++
    encodeUserProperties .userProperty p.user_properties

/-- `impl Encoder<Will> for MqttCodec` (`src/v5/will.rs:66`). -/
def encodeWill (w : Will) : List Nat :=
  encodeWillProperties w.properties ++ encodeUtf8String w.topic ++
    putU16 w.payload.length ++ w.payload

/-- `Connect::get_flags` (`src/v5/types.rs:420`). -/
def Connect.getFlags (m : Connect) : Nat :=
  boolToNat m.reserved |||
    (boolToNat m.clean_start_flag <<< 1) |||
    (match m.will with
     | some w => 0x04 ||| (w.qos.toNat <<< 3) ||| (boolToNat w.retain <<< 5)
     | none => 0) |||
    (boolToNat m.password.isSome <<< 6) |||
    (boolToNat m.username.isSome <<< 7)

/-- `impl Encoder<Connect> for MqttCodec` (`src/v5/connect.rs:193`). -/
def encodeConnectBody (m : Connect) : List Nat :=
  encodeUtf8String mqttBytes ++ [5] ++ [m.getFlags] ++
    putU16 m.keep_alive ++ encodeConnectProperties m.properties ++
    encodeUtf8String (m.client_identifier.getD []) ++
    (match m.will with | some w => encodeWill w | none => []) ++
    (match m.username with | some u => encodeUtf8String u | none => []) ++
    (match m.password with
     | some pw => putU16 pw.length ++ pw
     | none => [])

/-- `impl Encoder<ConnAckProperties> for MqttCodec`
(`src/v5/connack.rs:98`). -/
def encodeConnAckProperties (p : ConnAckProperties) : List Nat :=
  encodeVariableInteger p.size ++
    encodePropertyU32 .sessionExpireInterval p.session_expire_interval ++
    encodePropertyU16 .receiveMaximum p.receive_maximum ++
    encodePropertyU8 .maximumQoS (p.maximum_qos.map QoS.toNat) ++
    encodePropertyU8 .retainAvailable (p.retain_available.map boolToNat) ++
    encodePropertyU32 .maximumPacketSize p.maximum_packet_size ++
    encodePropertyString .assignedClientIdentifier
      p.assigned_client_identifier ++
    encodePropertyU16 .topicAliasMaximum p.topic_alias_maximum ++
    encodePropertyString .reasonString p.reason_string ++
    encodeUserProperties .userProperty p.user_properties

/-- `impl Encoder<ConnAck> for MqttCodec` (`src/v5/connack.rs:133`). -/
def encodeConnAckBody (m : ConnAck) : List Nat :=
  [boolToNat m.session_present] ++ [m.reason_code.toNat] ++
    encodeConnAckProperties m.properties

/-- `impl Encoder<DisconnectProperties> for MqttCodec`
(`src/v5/disconnect.rs:94`). -/
def encodeDisconnectProperties (p : DisconnectProperties) : List Nat :=
  encodeVariableInteger p.size ++
    encodePropertyU32 .sessionExpireInterval p.session_expire_interval ++
    encodePropertyString .reasonString p.reason_string ++
    encodeUserProperties .userProperty p.user_properties ++
    encodePropertyString .serverReference p.server_reference

/-- `impl Encoder<Disconnect> for MqttCodec` (`src/v5/disconnect.rs:71`). -/
def encodeDisconnectBody (m : Disconnect) : List Nat :=
  [m.reason_code.toNat] ++ encodeDisconnectProperties m.properties

/-- `encode_fixed_header` (`src/v5/encoder.rs:131`): type byte plus the
remaining-length varint. -/
def encodeFixedHeader (packet_type : PacketType) (remaining : Nat) :
    List Nat :=
  packet_type.toNat :: encodeVariableInteger remaining

/-- `impl Encoder<ControlPacket> for MqttCodec` (`src/v5/encoder.rs:14`).
`UnSubscribe` aborts in `remaining_length()` and `Auth` in its encoder
(`unimplemented!()`); `UnSubAck` reuses the `SubAck` body encoder. -/
def encodeControlPacket (p : ControlPacket) : Except RunError (List Nat) :=
  match p with
  | .connect m =>
      .ok (encodeFixedHeader .connect m.remainingLength ++
        encodeConnectBody m)
  | .connAck m =>
      .ok (encodeFixedHeader .connAck m.remainingLength ++
        encodeConnAckBody m)
  | .publish m => do
      let body ← encodePublishBody m
      .ok (encodeFixedHeader (.publish m.dup m.qos m.retain)
        m.remainingLength ++ body)
  | .pubAck m =>
      .ok (encodeFixedHeader .pubAck m.remainingLength ++
        encodePublishResponse m)
  | .pubRec m =>
      .ok (encodeFixedHeader .pubRec m.remainingLength ++
        encodePublishResponse m)
  | .pubRel m =>
      .ok (encodeFixedHeader .pubRel m.remainingLength ++
        encodePublishResponse m)
  | .pubComp m =>
      .ok (encodeFixedHeader .pubComp m.remainingLength ++
        encodePublishResponse m)
  | .subscribe m =>
      .ok (encodeFixedHeader .subscribe m.remainingLength ++
        encodeSubscribe m)
  | .subAck m =>
      .ok (encodeFixedHeader .subAck m.remainingLength ++ encodeSubAck m)
  | .unSubscribe _ => .error .panicked
  | .unSubAck m =>
      .ok (encodeFixedHeader .unSubAck m.remainingLength ++ encodeSubAck m)
  | .pingReq => .ok [PacketType.pingReq.toNat, 0]
  | .pingResp => .ok [PacketType.pingResp.toNat, 0]
  | .disconnect m =>
      .ok (encodeFixedHeader .disconnect m.remainingLength ++
        encodeDisconnectBody m)
  | .auth _ => .error .panicked

/-- The packet-identifier allocator (`struct PacketIdentifier` in
`src/identifier.rs`): a rolling `u16` counter plus a 65,536-bit bitmap.  The
bitmap (`Box<[usize; 1024]>`) is modelled as its indicator function. -/
structure PacketIdentifier where
  identifier : Nat
  used : Nat → Bool

/-- `impl Default for PacketIdentifier`: counter 0, no bit set. -/
def PacketIdentifier.default : PacketIdentifier :=
  { identifier := 0, used := fun _ => false }

/-- `impl Iterator for PacketIdentifier` (`src/identifier.rs:66`): increment
the counter with two's-complement wrap, fail when the bit for the candidate
is set, otherwise set the bit, store the counter and return the candidate.
On failure the state is unchanged (the caller keeps the old allocator). -/
def PacketIdentifier.next (s : PacketIdentifier) :
    Option (Nat × PacketIdentifier) :=
  let candidate := (s.identifier + 1) % 65536
  if s.used candidate then none
  else some (candidate,
    { identifier := candidate,
      used := fun j => if j = candidate then true else s.used j })

/-- `PacketIdentifier::release` (`src/identifier.rs:22`): clear the bit. -/
def PacketIdentifier.release (s : PacketIdentifier) (id : Nat) :
    PacketIdentifier :=
  { s with used := fun j => if j = id then false else s.used j }

/-- `k` successive allocations (each one keeping its identifier), used to
exhibit the state reached after draining a fresh allocator. -/
def PacketIdentifier.nextN : Nat → PacketIdentifier →
    Option PacketIdentifier
  | 0, s => some s
  | k + 1, s =>
      match s.next with
      | some (_, s') => PacketIdentifier.nextN k s'
      | none => none

/-- What one `Client::recv` await inside a `timeout(Duration::from_secs(3),
...)` wrapper resolves to: the 3-second timer fires, a packet arrives, or
the receive fails (stream error or disconnect). -/
inductive RecvEvent where
  | timeout
  | msg (p : ControlPacket)
  | failed (e : String)
  deriving DecidableEq, Repr

/-- Result of a publish handshake: the reason code handed to the caller, a
descriptive error (`anyhow` messages, abbreviated to their static prefix),
or still awaiting the next event when the script ran out. -/
inductive EngineOutcome where
  | ok (rc : ReasonCode)
  | err (msg : String)
  | pending
  deriving DecidableEq, Repr

/-- One engine run: its outcome, the final allocator state, and the packets
written to the wire in order. -/
structure EngineRun where
  result : EngineOutcome
  alloc : PacketIdentifier
  sent : List ControlPacket

/-- Loop of `Publisher::at_least_once_publish` (`src/client.rs:427`): send
the Publish (first attempt `dup=false`, retransmissions `dup=true`), then
await a matching PubAck for 3 seconds.  `recv_ack` releases the identifier
on a matching PubAck and errors on any other packet; a timeout decrements
the retry budget (initially 3) and resends, and once the budget is exhausted
the operation fails with the "PUBACK error" message (no release). -/
def atLeastOnceLoop (alloc : PacketIdentifier) (pid : Nat) (retain : Bool)
    (topic : List Nat) (props : PublishProperties) (payload : List Nat)
    (dup : Bool) (retries : Nat) (events : List RecvEvent) : EngineRun :=
  let pubMsg : ControlPacket := .publish
    { dup, qos := .atLeastOnce, retain, topic_name := topic,
      packet_identifier := some pid, properties := props, payload }
  match events with
  | [] => { result := .pending, alloc, sent := [pubMsg] }
  | ev :: rest =>
      match ev with
      | .timeout =>
          if retries > 0 then
            let r := atLeastOnceLoop alloc pid retain topic props payload
              true (retries - 1) rest
            { r with sent := pubMsg :: r.sent }
          else
            { result := .err "PUBACK error", alloc, sent := [pubMsg] }
      | .msg p =>
          match p with
          | .pubAck res =>
              if res.packet_identifier = pid then
                { result := .ok res.reason_code,
                  alloc := alloc.release res.packet_identifier,
                  sent := [pubMsg] }
              else
                { result := .err "unexpected", alloc, sent := [pubMsg] }
          | _ => { result := .err "unexpected", alloc, sent := [pubMsg] }
      | .failed e => { result := .err e, alloc, sent := [pubMsg] }

/-- `Publisher::at_least_once_publish` (`src/client.rs:427`): allocate, then
run the send/await loop.  When no identifier is available the Publish is
built with `packet_identifier: None` and the encoder rejects it at the first
send (`UndefinedPacketIdentifier`), which `?` propagates. -/
def atLeastOncePublish (alloc : PacketIdentifier) (retain : Bool)
    (topic : List Nat) (props : PublishProperties) (payload : List Nat)
    (events : List RecvEvent) : EngineRun :=
  match alloc.next with
  | some (pid, alloc') =>
      atLeastOnceLoop alloc' pid retain topic props payload false 3 events
  | none =>
      { result := .err "undefined packet identifier", alloc, sent := [] }

/-- Loop of `Publisher::send_rel` (`src/client.rs:531`): send PubRel
(reason `Success`, the publisher's `pubres` properties) and await a matching
PubComp for 3 seconds; `res_comp` releases the identifier on a match and
errors on any other packet; up to 3 retransmissions on timeout, then
"PUBCOMP error" (no release). -/
def sendRelLoop (alloc : PacketIdentifier) (pid : Nat)
    (pubresProps : ResponseProperties) (retries : Nat)
    (events : List RecvEvent) : EngineRun :=
  let relMsg : ControlPacket := .pubRel
    { packet_identifier := pid, reason_code := .success,
      properties := pubresProps }
  match events with
  | [] => { result := .pending, alloc, sent := [relMsg] }
  | ev :: rest =>
      match ev with
      | .timeout =>
          if retries > 0 then
            let r := sendRelLoop alloc pid pubresProps (retries - 1) rest
            { r with sent := relMsg :: r.sent }
          else
            { result := .err "PUBCOMP error", alloc, sent := [relMsg] }
      | .msg p =>
          match p with
          | .pubComp res =>
              if res.packet_identifier = pid then
                { result := .ok res.reason_code,
                  alloc := alloc.release res.packet_identifier,
                  sent := [relMsg] }
              else
                { result := .err "unexpected", alloc, sent := [relMsg] }
          | _ => { result := .err "unexpected", alloc, sent := [relMsg] }
      | .failed e => { result := .err e, alloc, sent := [relMsg] }

/-- Loop of `Publisher::exactly_once_publish` (`src/client.rs:467`): send
the Publish, await a matching PubRec for 3 seconds (up to 3 resends with
`dup=true`, then "PUBREC error" without release).  A matching PubRec with a
non-`Success` reason releases the identifier and returns that reason; with
`Success` the engine proceeds to `send_rel`. -/
def exactlyOnceLoop (alloc : PacketIdentifier) (pid : Nat) (retain : Bool)
    (topic : List Nat) (props : PublishProperties) (payload : List Nat)
    (pubresProps : ResponseProperties) (dup : Bool) (retries : Nat)
    (events : List RecvEvent) : EngineRun :=
  let pubMsg : ControlPacket := .publish
    { dup, qos := .exactlyOnce, retain, topic_name := topic,
      packet_identifier := some pid, properties := props, payload }
  match events with
  | [] => { result := .pending, alloc, sent := [pubMsg] }
  | ev :: rest =>
      match ev with
      | .timeout =>
          if retries > 0 then
            let r := exactlyOnceLoop alloc pid retain topic props payload
              pubresProps true (retries - 1) rest
            { r with sent := pubMsg :: r.sent }
          else
            { result := .err "PUBREC error", alloc, sent := [pubMsg] }
      | .msg p =>
          match p with
          | .pubRec res =>
              if res.packet_identifier = pid then
                if res.reason_code ≠ ReasonCode.success then
                  { result := .ok res.reason_code,
                    alloc := alloc.release res.packet_identifier,
                    sent := [pubMsg] }
                else
                  let r := sendRelLoop alloc pid pubresProps 3 rest
                  { r with sent := pubMsg :: r.sent }
              else
                { result := .err "unexpected", alloc, sent := [pubMsg] }
          | _ => { result := .err "unexpected", alloc, sent := [pubMsg] }
      | .failed e => { result := .err e, alloc, sent := [pubMsg] }

/-- `Publisher::exactly_once_publish` (`src/client.rs:467`). -/
def exactlyOncePublish (alloc : PacketIdentifier) (retain : Bool)
    (topic : List Nat) (props : PublishProperties) (payload : List Nat)
    (pubresProps : ResponseProperties) (events : List RecvEvent) :
    EngineRun :=
  match alloc.next with
  | some (pid, alloc') =>
      exactlyOnceLoop alloc' pid retain topic props payload pubresProps
        false 3 events
  | none =>
      { result := .err "undefined packet identifier", alloc, sent := [] }

/-- Whether a packet is a PubRel. -/
def ControlPacket.isPubRel : ControlPacket → Bool
  | .pubRel _ => true
  | _ => false

/-- `next` marks the identifier it hands out as used. -/
lemma PacketIdentifier.next_used_self (s s' : PacketIdentifier) (pid : Nat)
    (h : s.next = some (pid, s')) : s'.used pid = true := by
  by_cases hc : s.used ((s.identifier + 1) % 65536)
  · simp [PacketIdentifier.next, hc] at h
  · simp [PacketIdentifier.next, hc] at h
    obtain ⟨h1, h2⟩ := h
    rw [← h2]
    simp [h1]

/-- `release` clears the bit it is given. -/
lemma PacketIdentifier.release_used_self (s : PacketIdentifier) (id : Nat) :
    (s.release id).used id = false := by
  simp [PacketIdentifier.release]

/-- Unfolding `nextN` from the far end. -/
lemma PacketIdentifier.nextN_succ (k : Nat) (s : PacketIdentifier) :
    PacketIdentifier.nextN (k + 1) s =
      (PacketIdentifier.nextN k s).bind (fun t => t.next.map Prod.snd) := by
  induction k generalizing s with
  | zero =>
      cases h : s.next with
      | none => simp [PacketIdentifier.nextN, h]
      | some p => simp [PacketIdentifier.nextN, h]
  | succ k ih =>
      cases h : s.next with
      | none => simp only [PacketIdentifier.nextN, h, Option.bind]
      | some p =>
          obtain ⟨a, b⟩ := p
          simp only [PacketIdentifier.nextN, h]
          exact ih b


/-- Draining a fresh allocator: after `k ≤ 65535` allocations the counter
sits at `k` and exactly the identifiers `1..k` are marked used. -/
lemma PacketIdentifier.drain (k : Nat) (hk : k ≤ 65535) :
    ∃ s, PacketIdentifier.nextN k PacketIdentifier.default = some s ∧
      s.identifier = k ∧ ∀ j, s.used j = decide (1 ≤ j ∧ j ≤ k) := by
  induction k with
  | zero =>
      refine ⟨PacketIdentifier.default, rfl, rfl, ?_⟩
      intro j
      simp [PacketIdentifier.default]
      omega
  | succ k ih =>
      obtain ⟨s, hs, hid, hused⟩ := ih (by omega)
      have hcand : (s.identifier + 1) % 65536 = k + 1 := by
        rw [hid]
        omega
      have hfree : s.used (k + 1) = false := by
        rw [hused]
        exact decide_eq_false (by omega)
      have hnext : s.next = some (k + 1,
          { identifier := k + 1,
            used := fun j => if j = k + 1 then true else s.used j }) := by
        simp only [PacketIdentifier.next, hcand, hfree, Bool.false_eq_true,
          if_false]
      refine ⟨{ identifier := k + 1,
                used := fun j => if j = k + 1 then true else s.used j },
              ?_, rfl, ?_⟩
      · rw [PacketIdentifier.nextN_succ, hs]
        simp [hnext]
      · intro j
        by_cases hj : j = k + 1
        · subst hj
          dsimp only
          rw [if_pos rfl]
          exact (decide_eq_true (by omega)).symm
        · dsimp only
          rw [if_neg hj, hused]
          exact decide_eq_decide.mpr (by omega)


/-- C2: FALSIFYING THEOREM (code bug).  Draining a fresh allocator 65,535
times succeeds and yields a state in which every legal identifier 1..65535
is marked used; in that state `next()` does NOT return "no id available" but
hands out the reserved identifier 0, because the counter wraps
`65535 → 0` and bit 0 was never set.  The claim says it must return `none`. -/
theorem c2_allocator_full_returns_zero :
    ∃ s, PacketIdentifier.nextN 65535 PacketIdentifier.default = some s ∧
      (∀ i, 1 ≤ i → i ≤ 65535 → s.used i = true) ∧
      (s.next).map Prod.fst = some 0 := by
  obtain ⟨s, hs, hid, hused⟩ := PacketIdentifier.drain 65535 (by omega)
  refine ⟨s, hs, ?_, ?_⟩
  · intro i h1 h2
    rw [hused]
    exact decide_eq_true ⟨h1, h2⟩
  · have hcand : (s.identifier + 1) % 65536 = 0 := by
      rw [hid]
    have hfree : s.used 0 = false := by
      rw [hused]
      exact decide_eq_false (by omega)
    simp only [PacketIdentifier.next, hcand, hfree, Bool.false_eq_true,
      if_false, Option.map_some]
    rfl


/-- Masking with `0x7F` is reduction mod 128. -/
lemma and_127_eq_mod (b : Nat) : b &&& 127 = b % 128 :=
  Nat.and_pow_two_sub_one_eq_mod b 7

/-- A byte below 128 has the continuation bit clear. -/
lemma low_byte_and_128 (d : Nat) (h : d < 128) : d &&& 128 = 0 := by
  rw [show (128 : Nat) = 2 ^ 7 by norm_num, Nat.and_two_pow,
    Nat.testBit_lt_two_pow (by omega : d < 2 ^ 7)]
  simp

/-- Adding 128 to a value below 128 sets the continuation bit. -/
lemma cont_byte_and_128 (d : Nat) (h : d < 128) : (d + 128) &&& 128 = 128 := by
  rw [show (128 : Nat) = 2 ^ 7 by norm_num, Nat.and_two_pow]
  have ht : (d + 2 ^ 7).testBit 7 = true := by
    rw [Nat.testBit_to_div_mod]
    have h1 : (d + 2 ^ 7) / 2 ^ 7 = 1 := by omega
    rw [h1]
    decide
  rw [ht]
  simp

/-- Decoding the digits the encoder emits for `n`, entered with multiplier
`128 ^ k`, adds `n * 128 ^ k` to the accumulator and stops exactly at the
end of the digits. -/
lemma decodeVariableIntegerLoop_encode :
    ∀ n k value rest, n < 128 ^ (4 - k) → k ≤ 3 →
      value + n * 128 ^ k < 2 ^ 32 →
      decodeVariableIntegerLoop (encodeVariableInteger n ++ rest)
          (128 ^ k) value = .ok (value + n * 128 ^ k, rest) := by
  intro n
  induction n using Nat.strong_induction_on with
  | _ n ih =>
    intro k value rest hn hk hv
    have hle : 128 ^ k ≤ 0x80 * 0x80 * 0x80 := by
      interval_cases k <;> norm_num
    rw [encodeVariableInteger]
    by_cases h : n < 128
    · rw [dif_pos h]
      rw [List.cons_append, List.nil_append, decodeVariableIntegerLoop]
      simp only [and_127_eq_mod, Nat.mod_eq_of_lt h]
      rw [Nat.mod_eq_of_lt hv, if_pos hle, if_pos (low_byte_and_128 n h)]
    · rw [dif_neg h]
      rw [List.cons_append, decodeVariableIntegerLoop]
      have hb : (n % 128 + 128) &&& 127 = n % 128 := by
        rw [and_127_eq_mod]
        omega
      have hbc : (n % 128 + 128) &&& 128 = 128 :=
        cont_byte_and_128 _ (Nat.mod_lt n (by omega))
      have hmono : n % 128 * 128 ^ k ≤ n * 128 ^ k :=
        Nat.mul_le_mul_right _ (Nat.mod_le n 128)
      have hmod : (value + n % 128 * 128 ^ k) % 2 ^ 32
          = value + n % 128 * 128 ^ k := Nat.mod_eq_of_lt (by omega)
      simp only [hb, hmod, hbc]
      rw [if_pos hle, if_neg (by norm_num)]
      have hk2 : k ≤ 2 := by
        by_contra hk3
        have h3 : k = 3 := by omega
        subst h3
        simp at hn
        omega
      have hdiv : n / 128 < 128 ^ (4 - (k + 1)) := by
        apply (Nat.div_lt_iff_lt_mul (by omega : (0 : Nat) < 128)).mpr
        have hs : 128 ^ (4 - (k + 1)) * 128 = 128 ^ (4 - k) := by
          interval_cases k <;> norm_num
        rw [hs]
        exact hn
      have heq : value + n % 128 * 128 ^ k + n / 128 * 128 ^ (k + 1)
          = value + n * 128 ^ k := by
        have hsplit : n % 128 + 128 * (n / 128) = n := Nat.mod_add_div n 128
        calc value + n % 128 * 128 ^ k + n / 128 * 128 ^ (k + 1)
            = value + (n % 128 + 128 * (n / 128)) * 128 ^ k := by ring
        _ = value + n * 128 ^ k := by rw [hsplit]
      have hrec := ih (n / 128) (Nat.div_lt_self (by omega) (by omega))
        (k + 1) (value + n % 128 * 128 ^ k) rest hdiv (by omega)
        (by rw [heq]; exact hv)
      rw [show (128 : Nat) ^ k * 128 = 128 ^ (k + 1) from by ring]
      rw [hrec, heq]


/-- The encoder writes exactly `usizeSize n` bytes for any value that fits
in four digits. -/
lemma encodeVariableInteger_length (n : Nat) (h : n ≤ 268435455) :
    (encodeVariableInteger n).length = usizeSize n := by
  by_cases h1 : n < 128
  · rw [encodeVariableInteger, dif_pos h1, usizeSize, if_pos (by omega)]
    rfl
  · rw [encodeVariableInteger, dif_neg h1]
    by_cases h2 : n < 16384
    · have hd : n / 128 < 128 := by omega
      rw [encodeVariableInteger, dif_pos hd]
      rw [usizeSize, if_neg (by omega), if_pos (by omega)]
      rfl
    · have hd1 : ¬ n / 128 < 128 := by omega
      rw [encodeVariableInteger, dif_neg hd1]
      by_cases h3 : n < 2097152
      · have hd2 : n / 128 / 128 < 128 := by omega
        rw [encodeVariableInteger, dif_pos hd2]
        rw [usizeSize, if_neg (by omega), if_neg (by omega),
          if_pos (by omega)]
        rfl
      · have hd2 : ¬ n / 128 / 128 < 128 := by omega
        rw [encodeVariableInteger, dif_neg hd2]
        have hd3 : n / 128 / 128 / 128 < 128 := by omega
        rw [encodeVariableInteger, dif_pos hd3]
        rw [usizeSize, if_neg (by omega), if_neg (by omega),
          if_neg (by omega)]
        rfl

/-- C6: for every `n` in the variable-length-integer range, decoding the
encoder's output returns `n` with nothing left over, and the byte count
equals the `PropertiesSize` verdict for `usize`. -/
theorem c6_varint_roundtrip_and_size (n : Nat) (h : n ≤ 268435455) :
    decodeVariableInteger (encodeVariableInteger n) = .ok (n, []) ∧
      (encodeVariableInteger n).length = usizeSize n := by
  constructor
  · have hmain := decodeVariableIntegerLoop_encode n 0 0 []
      (by norm_num; omega) (by norm_num) (by norm_num; omega)
    rw [decodeVariableInteger]
    simpa using hmain
  · exact encodeVariableInteger_length n h

/-- C6 witness: the law evaluated at the largest legal value. -/
theorem c6_varint_witness :
    268435455 ≤ 268435455 ∧
      (decodeVariableInteger (encodeVariableInteger 268435455)
          = .ok (268435455, []) ∧
        (encodeVariableInteger 268435455).length = usizeSize 268435455) :=
  ⟨by norm_num, c6_varint_roundtrip_and_size 268435455 (by norm_num)⟩


/-- C7 counterexample: the input whose FIRST FOUR bytes all carry the
continuation bit but which has no fifth byte is rejected with `EndOfStream`,
not with `MalformedVariableInteger` as the claim states for every such
input. -/
theorem c7_counterexample_four_bytes :
    decodeVariableInteger [0x80, 0x80, 0x80, 0x80]
        = .error (.mqtt (.endOfStream "decode_variable_integer")) ∧
      ∀ v, decodeVariableInteger [0x80, 0x80, 0x80, 0x80]
        ≠ .error (.mqtt (.malformedVariableInteger v)) := by
  constructor
  · rfl
  · intro v hv
    have h1 : decodeVariableInteger [0x80, 0x80, 0x80, 0x80]
        = .error (.mqtt (.endOfStream "decode_variable_integer")) := rfl
    rw [h1] at hv
    simp at hv

/-- C7 (amended): whenever a fifth byte exists after four continuation
bytes, the decoder reads it and then fails with
`MalformedVariableInteger`. -/
theorem c7_five_byte_rejected (b0 b1 b2 b3 b4 : Nat) (rest : List Nat)
    (h0 : b0 &&& 0x80 ≠ 0) (h1 : b1 &&& 0x80 ≠ 0) (h2 : b2 &&& 0x80 ≠ 0)
    (h3 : b3 &&& 0x80 ≠ 0) :
    ∃ v, decodeVariableInteger (b0 :: b1 :: b2 :: b3 :: b4 :: rest)
      = .error (.mqtt (.malformedVariableInteger v)) := by
  rw [decodeVariableInteger]
  rw [decodeVariableIntegerLoop]
  rw [if_pos (by norm_num), if_neg h0]
  rw [decodeVariableIntegerLoop]
  rw [if_pos (by norm_num), if_neg h1]
  rw [decodeVariableIntegerLoop]
  rw [if_pos (by norm_num), if_neg h2]
  rw [decodeVariableIntegerLoop]
  rw [if_pos (by norm_num), if_neg h3]
  rw [decodeVariableIntegerLoop]
  rw [if_neg (by norm_num)]
  exact ⟨_, rfl⟩

/-- C7 witness: the five-byte all-continuation sequence is rejected as
malformed. -/
theorem c7_five_byte_witness :
    (0x80 &&& 0x80 ≠ 0) ∧
      ∃ v, decodeVariableInteger [0x80, 0x80, 0x80, 0x80, 0x80]
        = .error (.mqtt (.malformedVariableInteger v)) :=
  ⟨by decide,
    c7_five_byte_rejected 0x80 0x80 0x80 0x80 0x80 [] (by decide) (by decide)
      (by decide) (by decide)⟩


/-- C8: a PubAck/PubRec/PubRel/PubComp body that is just a two-byte packet
identifier decodes to that identifier with implied reason `Success` and
empty properties; in particular `00 2A` gives PubAck with id 42. -/
theorem c8_pubres_short_form :
    (∀ b0 b1 : Nat, b0 < 256 → b1 < 256 →
      PublishResponse.tryFrom [b0, b1] =
        .ok { packet_identifier := b0 * 256 + b1,
              reason_code := .success,
              properties := ResponseProperties.default }) ∧
      PublishResponse.tryFrom [0x00, 0x2A] =
        .ok { packet_identifier := 42, reason_code := .success,
              properties := ResponseProperties.default } := by
  constructor
  · intro b0 b1 _ _
    rw [PublishResponse.tryFrom]
    simp [getU16, sliceTo, ResponseProperties.tryFrom,
      responsePropertiesLoop, PropertiesBuilder.pubres,
      PropertiesBuilder.default, ResponseProperties.default,
      Bind.bind, Except.bind, Pure.pure, Except.pure]
  · rfl

/-- C8 witness: the short form at the concrete scenario bytes. -/
theorem c8_pubres_short_form_witness :
    (0 : Nat) < 256 ∧ (42 : Nat) < 256 ∧
      PublishResponse.tryFrom [0, 42] =
        .ok { packet_identifier := 0 * 256 + 42, reason_code := .success,
              properties := ResponseProperties.default } :=
  ⟨by decide, by decide,
    c8_pubres_short_form.1 0 42 (by decide) (by decide)⟩

/-- C10: FALSIFYING THEOREM (code bug).  A declared properties length larger
than the remaining body makes both the PubAck-family decoder and the SubAck
decoder abort (the `Bytes::slice(..len)` call panics) instead of returning
an `MqttError`. -/
theorem c10_slice_out_of_range_panics :
    PublishResponse.tryFrom [0x00, 0x2A, 0x00, 0x05] = .error .panicked ∧
      SubAck.tryFrom [0x00, 0x01, 0x05] = .error .panicked := by
  exact ⟨rfl, rfl⟩

/-- C3: FALSIFYING THEOREM (code bug).  A well-formed SubAck body with a
nonempty properties region (declared length 5, a single empty user property)
followed by one reason byte `0x00` does not decode to the one-per-filter
reason list `[Success]`: because the decoder takes the properties with
`Bytes::slice`, which does not advance the reader, the reason-code loop
re-reads the properties region and chokes on the property id `0x26`.  A body
with an empty properties region is decoded as the claim describes. -/
theorem c3_suback_rereads_properties :
    SubAck.tryFrom [0x00, 0x01, 0x05, 0x26, 0x00, 0x00, 0x00, 0x00, 0x00]
        = .error (.mqtt (.malformedReasonCode 0x26)) ∧
      SubAck.tryFrom [0x00, 0x01, 0x00, 0x00]
        = .ok { packet_identifier := 1,
                properties := ResponseProperties.default,
                reason_codes := [.success] } := by
  exact ⟨rfl, rfl⟩


/-- C1: FALSIFYING THEOREM (code bug).  Encoding the PubAck with packet
identifier 1, reason `Success` and a one-byte reason string `"x"` produces
the frame `40 08 00 01 00 04 1F 00 01 78`; feeding that frame back through
the framing decoder yields a PubAck whose `reason_string` is gone (the
decoder writes the `ReasonString` property into the builder's
`response_topic` slot, which the `pubres` projection drops), so
`decode(encode(P)) ≠ P` for this decodable packet. -/
theorem c1_pubres_roundtrip_violation :
    encodeControlPacket (.pubAck ⟨1, .success, ⟨some [0x78], []⟩⟩)
      = .ok [0x40, 0x08, 0x00, 0x01, 0x00, 0x04, 0x1F, 0x00, 0x01, 0x78] ∧
    (MqttCodec.new none).decode
        [0x40, 0x08, 0x00, 0x01, 0x00, 0x04, 0x1F, 0x00, 0x01, 0x78]
      = .ok (some (.pubAck ⟨1, .success, ⟨none, []⟩⟩), MqttCodec.new none,
          []) ∧
    (ControlPacket.pubAck ⟨1, .success, ⟨none, []⟩⟩)
      ≠ .pubAck ⟨1, .success, ⟨some [0x78], []⟩⟩ := by
  refine ⟨?_, ?_, by decide⟩
  · simp [encodeControlPacket, encodeFixedHeader, encodeVariableInteger,
      PublishResponse.remainingLength, ResponseProperties.size,
      sizeOfOptString, sizeOfUserProperties, usizeSize,
      encodePublishResponse, encodeResponseProperties, encodePropertyString,
      encodeUserProperties, encodeUtf8String, putU16, Property.toNat,
      ReasonCode.toNat, PacketType.toNat]
  · rfl


/-- Inverting a successful `Except` bind. -/
lemma except_bind_eq_ok {ε α β : Type} {x : Except ε α}
    {f : α → Except ε β} {b : β} (h : (x >>= f) = .ok b) :
    ∃ a, x = .ok a ∧ f a = .ok b := by
  cases x with
  | error e => simp [Bind.bind, Except.bind] at h
  | ok a => exact ⟨a, rfl, by simpa [Bind.bind, Except.bind] using h⟩


/-- C9: every Publish the decoder produces satisfies
`packet_identifier.isSome ↔ qos ≠ AtMostOnce`, and encoding a Publish with
`qos ≠ AtMostOnce` but no identifier fails with
`UndefinedPacketIdentifier`. -/
theorem c9_publish_identifier_invariant :
    (∀ (dup : Bool) (qos : QoS) (retain : Bool) (reader : List Nat)
        (p : Publish),
      decodePublish dup qos retain reader = .ok (some (.publish p)) →
      (p.packet_identifier.isSome ↔ qos ≠ QoS.atMostOnce)) ∧
    (∀ m : Publish, m.qos ≠ QoS.atMostOnce → m.packet_identifier = none →
      encodePublishBody m
        = .error (.mqtt (.undefinedPacketIdentifier m.qos))) := by
  constructor
  · intro dup qos retain reader p h
    rw [decodePublish] at h
    split at h
    · exact absurd h (by simp)
    · obtain ⟨⟨topicOpt, reader1⟩, e1, h⟩ := except_bind_eq_ok h
      dsimp only at h
      cases topicOpt with
      | none => simp [Bind.bind, Except.bind] at h
      | some topic =>
          dsimp only at h
          rw [pure_bind] at h
          by_cases hq : qos = QoS.atMostOnce
          · rw [if_pos hq, pure_bind] at h
            dsimp only at h
            obtain ⟨⟨plen, reader3⟩, e4, h⟩ := except_bind_eq_ok h
            dsimp only at h
            obtain ⟨⟨propBytes, reader4⟩, e5, h⟩ := except_bind_eq_ok h
            dsimp only at h
            obtain ⟨props, e6, h⟩ := except_bind_eq_ok h
            rw [Except.ok.injEq, Option.some.injEq] at h
            cases h
            simp [hq]
          · rw [if_neg hq] at h
            split at h
            · simp [Bind.bind, Except.bind] at h
            · obtain ⟨⟨pid, reader2⟩, e3, h⟩ := except_bind_eq_ok h
              dsimp only at h
              rw [pure_bind] at h
              dsimp only at h
              obtain ⟨⟨plen, reader3⟩, e4, h⟩ := except_bind_eq_ok h
              dsimp only at h
              obtain ⟨⟨propBytes, reader4⟩, e5, h⟩ := except_bind_eq_ok h
              dsimp only at h
              obtain ⟨props, e6, h⟩ := except_bind_eq_ok h
              rw [Except.ok.injEq, Option.some.injEq] at h
              cases h
              simp [hq]
  · intro m hq hpid
    rw [encodePublishBody]
    rw [if_pos (fun heq => hq heq.symm), hpid]
    rfl


/-- C9 witness: the invariant at the decoded QoS-1 scenario frame body
`00 05 61 2F 62 2F 63 00 2A 00 68 69`, and the encoder rejection at a QoS-1
Publish without an identifier. -/
theorem c9_publish_identifier_witness :
    ((Publish.mk false .atLeastOnce false [97, 47, 98, 47, 99] (some 42)
        ⟨none, none, none, none, none, [], none, none⟩
        [104, 105]).packet_identifier.isSome
      ↔ QoS.atLeastOnce ≠ QoS.atMostOnce) ∧
    encodePublishBody
        (Publish.mk false .atLeastOnce false [97] none
          ⟨none, none, none, none, none, [], none, none⟩ [])
      = .error (.mqtt (.undefinedPacketIdentifier QoS.atLeastOnce)) :=
  ⟨c9_publish_identifier_invariant.1 false .atLeastOnce false
      [0, 5, 97, 47, 98, 47, 99, 0, 42, 0, 104, 105] _ rfl,
    c9_publish_identifier_invariant.2
      (Publish.mk false .atLeastOnce false [97] none
        ⟨none, none, none, none, none, [], none, none⟩ [])
      (by decide) rfl⟩


/-- Running the QoS-2 PubRec loop against `k ≤ retries` timeouts followed by
a matching PubRec with a non-Success reason: the loop returns that reason,
releases the identifier, and never sends a PubRel. -/
lemma exactlyOnceLoop_reject (k : Nat) :
    ∀ (retries : Nat) (dup : Bool) (alloc : PacketIdentifier) (pid : Nat)
      (retain : Bool) (topic : List Nat) (props : PublishProperties)
      (payload : List Nat) (pubresProps rprops : ResponseProperties)
      (rc : ReasonCode) (rest : List RecvEvent),
      k ≤ retries → rc ≠ .success →
      (exactlyOnceLoop alloc pid retain topic props payload pubresProps dup
          retries (List.replicate k .timeout ++
            .msg (.pubRec ⟨pid, rc, rprops⟩) :: rest)).result = .ok rc ∧
      (exactlyOnceLoop alloc pid retain topic props payload pubresProps dup
          retries (List.replicate k .timeout ++
            .msg (.pubRec ⟨pid, rc, rprops⟩) :: rest)).alloc
        = alloc.release pid ∧
      ∀ p ∈ (exactlyOnceLoop alloc pid retain topic props payload pubresProps
          dup retries (List.replicate k .timeout ++
            .msg (.pubRec ⟨pid, rc, rprops⟩) :: rest)).sent,
        p.isPubRel = false := by
  induction k with
  | zero =>
      intro retries dup alloc pid retain topic props payload pubresProps
        rprops rc rest _ hrc
      rw [List.replicate]
      simp only [List.nil_append]
      rw [exactlyOnceLoop]
      simp [hrc, ControlPacket.isPubRel]
  | succ k ih =>
      intro retries dup alloc pid retain topic props payload pubresProps
        rprops rc rest hk hrc
      rw [List.replicate_succ, List.cons_append]
      rw [exactlyOnceLoop]
      simp only []
      rw [if_pos (by omega : retries > 0)]
      obtain ⟨h1, h2, h3⟩ := ih (retries - 1) true alloc pid retain topic
        props payload pubresProps rprops rc rest (by omega) hrc
      refine ⟨h1, h2, ?_⟩
      intro p hp
      simp only [List.mem_cons] at hp
      rcases hp with hp | hp
      · subst hp
        rfl
      · exact h3 p hp


/-- C5: in the QoS-2 handshake, a matching PubRec with reason other than
Success (after any `k ≤ 3` timed-out attempts) makes the engine return that
reason to the caller, release the packet identifier, and send no PubRel. -/
theorem c5_qos2_pubrec_reject (alloc alloc' : PacketIdentifier) (pid : Nat)
    (retain : Bool) (topic : List Nat) (props : PublishProperties)
    (payload : List Nat) (pubresProps rprops : ResponseProperties)
    (rc : ReasonCode) (k : Nat) (rest : List RecvEvent)
    (halloc : alloc.next = some (pid, alloc')) (hrc : rc ≠ .success)
    (hk : k ≤ 3) :
    (exactlyOncePublish alloc retain topic props payload pubresProps
        (List.replicate k .timeout ++
          .msg (.pubRec ⟨pid, rc, rprops⟩) :: rest)).result = .ok rc ∧
    (exactlyOncePublish alloc retain topic props payload pubresProps
        (List.replicate k .timeout ++
          .msg (.pubRec ⟨pid, rc, rprops⟩) :: rest)).alloc.used pid
      = false ∧
    ∀ p ∈ (exactlyOncePublish alloc retain topic props payload pubresProps
        (List.replicate k .timeout ++
          .msg (.pubRec ⟨pid, rc, rprops⟩) :: rest)).sent,
      p.isPubRel = false := by
  rw [exactlyOncePublish, halloc]
  obtain ⟨h1, h2, h3⟩ := exactlyOnceLoop_reject k 3 false alloc' pid retain
    topic props payload pubresProps rprops rc rest hk hrc
  exact ⟨h1, by rw [h2]; exact PacketIdentifier.release_used_self _ _, h3⟩

/-- C5 witness: a fresh client publishes QoS 2, one attempt times out, the
retransmission's PubRec carries `UnspecifiedError`; the caller sees that
code, identifier 1 is free again, and no PubRel was sent. -/
theorem c5_qos2_pubrec_reject_witness :
    (exactlyOncePublish PacketIdentifier.default false [] ⟨none, none, none,
        none, none, [], none, none⟩ [] ⟨none, []⟩
        (List.replicate 1 .timeout ++
          .msg (.pubRec ⟨1, .unspecifiedError, ⟨none, []⟩⟩) :: [])).result
      = .ok .unspecifiedError ∧
    (exactlyOncePublish PacketIdentifier.default false [] ⟨none, none, none,
        none, none, [], none, none⟩ [] ⟨none, []⟩
        (List.replicate 1 .timeout ++
          .msg (.pubRec ⟨1, .unspecifiedError, ⟨none, []⟩⟩) :: [])).alloc.used
        1 = false ∧
    ∀ p ∈ (exactlyOncePublish PacketIdentifier.default false [] ⟨none, none,
        none, none, none, [], none, none⟩ [] ⟨none, []⟩
        (List.replicate 1 .timeout ++
          .msg (.pubRec ⟨1, .unspecifiedError, ⟨none, []⟩⟩) :: [])).sent,
      p.isPubRel = false :=
  c5_qos2_pubrec_reject PacketIdentifier.default
    ⟨1, fun j => if j = 1 then true else false⟩ 1 false []
    ⟨none, none, none, none, none, [], none, none⟩ [] ⟨none, []⟩ ⟨none, []⟩
    .unspecifiedError 1 [] rfl (by decide) (by decide)


/-- Four timeouts drain the QoS-1 retry budget: "PUBACK error" and the
allocator is left untouched. -/
lemma atLeastOnceLoop_four_timeouts (alloc : PacketIdentifier) (pid : Nat)
    (retain : Bool) (topic : List Nat) (props : PublishProperties)
    (payload : List Nat) :
    (atLeastOnceLoop alloc pid retain topic props payload false 3
        [.timeout, .timeout, .timeout, .timeout]).result
      = .err "PUBACK error" ∧
    (atLeastOnceLoop alloc pid retain topic props payload false 3
        [.timeout, .timeout, .timeout, .timeout]).alloc = alloc := by
  constructor <;>
    simp [atLeastOnceLoop, List.replicate]

/-- Four timeouts drain the QoS-2 PubRec retry budget. -/
lemma exactlyOnceLoop_four_timeouts (alloc : PacketIdentifier) (pid : Nat)
    (retain : Bool) (topic : List Nat) (props : PublishProperties)
    (payload : List Nat) (pubresProps : ResponseProperties) :
    (exactlyOnceLoop alloc pid retain topic props payload pubresProps false 3
        [.timeout, .timeout, .timeout, .timeout]).result = .err "PUBREC error" ∧
    (exactlyOnceLoop alloc pid retain topic props payload pubresProps false 3
        [.timeout, .timeout, .timeout, .timeout]).alloc = alloc := by
  constructor <;>
    simp [exactlyOnceLoop, List.replicate]

/-- Four timeouts drain the PubRel/PubComp retry budget. -/
lemma sendRelLoop_four_timeouts (alloc : PacketIdentifier) (pid : Nat)
    (pubresProps : ResponseProperties) :
    (sendRelLoop alloc pid pubresProps 3
        [.timeout, .timeout, .timeout, .timeout]).result = .err "PUBCOMP error" ∧
    (sendRelLoop alloc pid pubresProps 3
        [.timeout, .timeout, .timeout, .timeout]).alloc = alloc := by
  constructor <;>
    simp [sendRelLoop, List.replicate]


/-- C4: in both the QoS-1 and QoS-2 handshakes a fourth consecutive timeout
fails the operation with its descriptive error ("PUBACK error",
"PUBREC error", "PUBCOMP error") and the allocated identifier stays marked
used; on the success paths (matching PubAck, or matching PubRec-Success
followed by matching PubComp) the identifier is released. -/
theorem c4_terminal_timeout_keeps_identifier (alloc alloc' : PacketIdentifier)
    (pid : Nat) (retain : Bool) (topic : List Nat)
    (props : PublishProperties) (payload : List Nat)
    (pubresProps rp rp1 rp2 : ResponseProperties) (rc : ReasonCode)
    (halloc : alloc.next = some (pid, alloc')) :
    ((atLeastOncePublish alloc retain topic props payload
        (List.replicate 4 .timeout)).result = .err "PUBACK error" ∧
      (atLeastOncePublish alloc retain topic props payload
        (List.replicate 4 .timeout)).alloc.used pid = true) ∧
    ((exactlyOncePublish alloc retain topic props payload pubresProps
        (List.replicate 4 .timeout)).result = .err "PUBREC error" ∧
      (exactlyOncePublish alloc retain topic props payload pubresProps
        (List.replicate 4 .timeout)).alloc.used pid = true) ∧
    ((exactlyOncePublish alloc retain topic props payload pubresProps
        (.msg (.pubRec ⟨pid, .success, rp⟩) ::
          List.replicate 4 .timeout)).result = .err "PUBCOMP error" ∧
      (exactlyOncePublish alloc retain topic props payload pubresProps
        (.msg (.pubRec ⟨pid, .success, rp⟩) ::
          List.replicate 4 .timeout)).alloc.used pid = true) ∧
    ((atLeastOncePublish alloc retain topic props payload
        [.msg (.pubAck ⟨pid, rc, rp⟩)]).result = .ok rc ∧
      (atLeastOncePublish alloc retain topic props payload
        [.msg (.pubAck ⟨pid, rc, rp⟩)]).alloc.used pid = false) ∧
    ((exactlyOncePublish alloc retain topic props payload pubresProps
        [.msg (.pubRec ⟨pid, .success, rp1⟩),
         .msg (.pubComp ⟨pid, rc, rp2⟩)]).result = .ok rc ∧
      (exactlyOncePublish alloc retain topic props payload pubresProps
        [.msg (.pubRec ⟨pid, .success, rp1⟩),
         .msg (.pubComp ⟨pid, rc, rp2⟩)]).alloc.used pid = false) := by
  have hused : alloc'.used pid = true :=
    PacketIdentifier.next_used_self alloc alloc' pid halloc
  refine ⟨⟨?_, ?_⟩, ⟨?_, ?_⟩, ⟨?_, ?_⟩, ⟨?_, ?_⟩, ⟨?_, ?_⟩⟩
  · rw [atLeastOncePublish, halloc]
    exact (atLeastOnceLoop_four_timeouts alloc' pid retain topic props
      payload).1
  · rw [atLeastOncePublish, halloc]
    dsimp only [List.replicate]
    rw [(atLeastOnceLoop_four_timeouts alloc' pid retain topic props
      payload).2]
    exact hused
  · rw [exactlyOncePublish, halloc]
    exact (exactlyOnceLoop_four_timeouts alloc' pid retain topic props
      payload pubresProps).1
  · rw [exactlyOncePublish, halloc]
    dsimp only [List.replicate]
    rw [(exactlyOnceLoop_four_timeouts alloc' pid retain topic props
      payload pubresProps).2]
    exact hused
  · rw [exactlyOncePublish, halloc]
    simp only [exactlyOnceLoop]
    simp
    exact (sendRelLoop_four_timeouts alloc' pid pubresProps).1
  · rw [exactlyOncePublish, halloc]
    simp only [exactlyOnceLoop]
    simp
    rw [(sendRelLoop_four_timeouts alloc' pid pubresProps).2]
    exact hused
  · rw [atLeastOncePublish, halloc]
    simp [atLeastOnceLoop]
  · rw [atLeastOncePublish, halloc]
    simp [atLeastOnceLoop, PacketIdentifier.release_used_self]
  · rw [exactlyOncePublish, halloc]
    simp [exactlyOnceLoop, sendRelLoop]
  · rw [exactlyOncePublish, halloc]
    simp [exactlyOnceLoop, sendRelLoop, PacketIdentifier.release_used_self]


/-- C4 witness: a fresh client running the QoS-1 handshake against four
straight timeouts ends in "PUBACK error" with identifier 1 still marked
used. -/
theorem c4_terminal_timeout_witness :
    (atLeastOncePublish PacketIdentifier.default false []
        ⟨none, none, none, none, none, [], none, none⟩ []
        (List.replicate 4 .timeout)).result = .err "PUBACK error" ∧
    (atLeastOncePublish PacketIdentifier.default false []
        ⟨none, none, none, none, none, [], none, none⟩ []
        (List.replicate 4 .timeout)).alloc.used 1 = true :=
  (c4_terminal_timeout_keeps_identifier PacketIdentifier.default
    ⟨1, fun j => if j = 1 then true else false⟩ 1 false []
    ⟨none, none, none, none, none, [], none, none⟩ [] ⟨none, []⟩ ⟨none, []⟩
    ⟨none, []⟩ ⟨none, []⟩ .success rfl).1


end ComoMqtt
